import Mathlib

/-!
Verification of the autovpa reconciliation engine against its specification.

The Go sources are shallowly embedded: Go maps `map[string]string` become
association lists queried through `lookup` (first binding wins, which is the
map denotation; all maps built by the operator are duplicate-free), Go slices
become `List`, fallible functions return `Except`, and the Kubernetes API
client is modelled by a `Cluster` value holding the VPA objects of the
cluster plus an explicit record of the write calls a reconcile issues.
-/

namespace Autovpa

/-- Go `map[string]string`, as an association list read through `lookup`. -/
abbrev StrMap := List (String × String)

/-- Map update `m[k] = v`: the new binding shadows and drops any old one. -/
def StrMap.set (m : StrMap) (k v : String) : StrMap :=
  (k, v) :: m.filter (fun p => !(p.1 == k))

/-- Go `maps.Copy(a, b)` applied to a clone of `a`: every binding of `b` is
written into `a` in order, so on key clashes `b` wins (and a later binding
of `b` wins over an earlier one, as for a Go map literal). Models
`utils.MergeMaps` from the repository; the Go nil-map special case is
invisible here because the empty list already denotes the empty map. -/
def MergeMaps (a b : StrMap) : StrMap :=
  match b with
  | [] => a
  | (k, v) :: rest => MergeMaps (a.set k v) rest

/-- Left-biased choice on `Option`, written out to keep proofs first-order. -/
def oor (x y : Option String) : Option String :=
  match x with
  | some v => some v
  | none => y

/-- The binding for `k` contributed by the list `b` when `b` is copied into a
map in order: the last binding wins, mirroring Go map writes. -/
def ovLast (b : StrMap) (k : String) : Option String :=
  match b with
  | [] => none
  | (k', v) :: rest => oor (ovLast rest k) (if k = k' then some v else none)

/-- Go `maps.Equal` on the maps denoted by the two lists: the lookups agree
on every key appearing in either list (and trivially on all other keys). -/
def mapsEqual (a b : StrMap) : Bool :=
  ((a ++ b).map (fun p => p.1)).all (fun k => a.lookup k == b.lookup k)

theorem lookup_cons (k' v : String) (m : StrMap) (k : String) :
    ((k', v) :: m).lookup k = if k = k' then some v else m.lookup k := by
  by_cases h : k = k'
  · simp [List.lookup, h]
  · have hb : (k == k') = false := beq_eq_false_iff_ne.2 h
    simp [List.lookup, hb, h]

theorem lookup_filter_ne (m : StrMap) (k k' : String) (h : k ≠ k') :
    (m.filter (fun p => !(p.1 == k'))).lookup k = m.lookup k := by
  induction m with
  | nil => rfl
  | cons p rest ih =>
    obtain ⟨a, b⟩ := p
    by_cases ha : a = k'
    · have h1 : (!(a == k')) = false := by simp [ha]
      simp only [List.filter, h1]
      rw [ih, lookup_cons, if_neg (fun he => h (he.trans ha))]
    · have h1 : (!(a == k')) = true := by simp [ha]
      simp only [List.filter, h1]
      rw [lookup_cons, lookup_cons, ih]

theorem lookup_set (m : StrMap) (k v k' : String) :
    (m.set k v).lookup k' = if k' = k then some v else m.lookup k' := by
  unfold StrMap.set
  rw [lookup_cons]
  by_cases h : k' = k
  · simp [h]
  · simp [h, lookup_filter_ne m k' k h]

theorem lookup_MergeMaps (b a : StrMap) (k : String) :
    (MergeMaps a b).lookup k = oor (ovLast b k) (a.lookup k) := by
  induction b generalizing a with
  | nil => simp [MergeMaps, ovLast, oor]
  | cons p rest ih =>
    obtain ⟨k1, v1⟩ := p
    rw [MergeMaps, ih, ovLast]
    rw [lookup_set]
    cases hr : ovLast rest k with
    | some w => simp [oor]
    | none =>
      by_cases h : k = k1 <;> simp [oor, h]

theorem lookup_eq_none_of_not_memkey (m : StrMap) (k : String)
    (h : k ∉ m.map (fun p => p.1)) : m.lookup k = none := by
  induction m with
  | nil => rfl
  | cons p rest ih =>
    obtain ⟨a, b⟩ := p
    rw [List.map_cons, List.mem_cons] at h
    push_neg at h
    rw [lookup_cons, if_neg h.1, ih h.2]

theorem mapsEqual_iff (a b : StrMap) :
    mapsEqual a b = true ↔ ∀ k, a.lookup k = b.lookup k := by
  constructor
  · intro h k
    rw [mapsEqual, List.all_eq_true] at h
    by_cases ha : k ∈ a.map (fun p => p.1)
    · have hm : k ∈ (a ++ b).map (fun p => p.1) := by
        rw [List.map_append, List.mem_append]
        exact Or.inl ha
      simpa using h k hm
    · by_cases hb : k ∈ b.map (fun p => p.1)
      · have hm : k ∈ (a ++ b).map (fun p => p.1) := by
          rw [List.map_append, List.mem_append]
          exact Or.inr hb
        simpa using h k hm
      · rw [lookup_eq_none_of_not_memkey a k ha, lookup_eq_none_of_not_memkey b k hb]
  · intro h
    rw [mapsEqual, List.all_eq_true]
    intro k _
    simp [h k]

theorem mapsEqual_of_forall (a b : StrMap)
    (h : ∀ k, a.lookup k = b.lookup k) : mapsEqual a b = true :=
  (mapsEqual_iff a b).2 h

/-- Copying `b` into a map that already contains a copy of `b` changes no
lookup: the algebraic heart of reconcile idempotence. -/
theorem mapsEqual_MergeMaps_again (a b : StrMap) :
    mapsEqual (MergeMaps a b) (MergeMaps (MergeMaps a b) b) = true := by
  apply mapsEqual_of_forall
  intro k
  rw [lookup_MergeMaps, lookup_MergeMaps, lookup_MergeMaps]
  cases ovLast b k <;> simp [oor]

/-- `metav1.OwnerReference`: the fields the repository reads or writes. -/
structure OwnerReference where
  apiVersion : String
  kind : String
  name : String
  uid : String
  controller : Option Bool
  blockOwnerDeletion : Option Bool
deriving DecidableEq, Repr

/-- `schema.GroupVersionKind`. -/
structure GroupVersionKind where
  group : String
  version : String
  kind : String
deriving DecidableEq, Repr

/-- `schema.GroupVersion.String()`: `group/version`, or just `version` for the
core group. -/
def GroupVersionKind.groupVersionString (g : GroupVersionKind) : String :=
  if g.group = "" then g.version else g.group ++ "/" ++ g.version

def DeploymentGVK : GroupVersionKind := ⟨"apps", "v1", "Deployment"⟩

def StatefulSetGVK : GroupVersionKind := ⟨"apps", "v1", "StatefulSet"⟩

def DaemonSetGVK : GroupVersionKind := ⟨"apps", "v1", "DaemonSet"⟩

/-- `k8sautoscalingv1.CrossVersionObjectReference`: the targetRef type. It has
exactly the three fields below; in particular it carries no UID. -/
structure CrossVersionObjectReference where
  kind : String
  name : String
  apiVersion : String
deriving DecidableEq, Repr

/-- `vpaautoscaling.PodUpdatePolicy`, with the update mode kept as a string. -/
structure PodUpdatePolicy where
  updateMode : Option String
  minReplicas : Option Int
deriving DecidableEq, Repr

/-- `vpaautoscaling.ContainerResourcePolicy`; resource quantities are kept as
literal strings. -/
structure ContainerResourcePolicy where
  containerName : String
  mode : Option String
  minAllowed : StrMap
  maxAllowed : StrMap
  controlledResources : Option (List String)
  controlledValues : Option String
deriving DecidableEq, Repr

/-- `vpaautoscaling.PodResourcePolicy`. -/
structure PodResourcePolicy where
  containerPolicies : List ContainerResourcePolicy
deriving DecidableEq, Repr

/-- `vpaautoscaling.VerticalPodAutoscalerRecommenderSelector`. -/
structure VPARecommenderSelector where
  name : String
deriving DecidableEq, Repr

/-- `vpaautoscaling.VerticalPodAutoscalerSpec`. The Go reconciler converts
this typed value to an unstructured map; the conversion is injective, so the
typed value stands for its unstructured image and structural equality stands
for `apiequality.Semantic.DeepEqual` on those images. -/
structure VerticalPodAutoscalerSpec where
  targetRef : Option CrossVersionObjectReference
  updatePolicy : Option PodUpdatePolicy
  resourcePolicy : Option PodResourcePolicy
  recommenders : List VPARecommenderSelector
deriving DecidableEq, Repr

/-- `config.ProfileSpec` is a named copy of the VPA spec type. -/
abbrev ProfileSpec := VerticalPodAutoscalerSpec

/-- `config.Profile`: optional per-profile name template plus the inline spec. -/
structure Profile where
  nameTemplate : String
  spec : ProfileSpec
deriving DecidableEq, Repr

/-- `controller.MetaConfig`. -/
structure MetaConfig where
  profileKey : String
  managedLabel : String
deriving DecidableEq, Repr

/-- `controller.ProfileConfig`: default template, default profile name and the
profile map (duplicate-free by construction in Go). -/
structure ProfileConfig where
  nameTemplate : String
  defaultProfile : String
  entries : List (String × Profile)
deriving DecidableEq, Repr

/-- `utils.NameTemplateData`: the variables available to name templates. -/
structure NameTemplateData where
  workloadName : String
  ns : String
  kind : String
  profile : String
deriving DecidableEq, Repr

/-- `utils.DefaultIfZero` at type `string`: the default replaces the empty
string. -/
def DefaultIfZero (v d : String) : String :=
  if v = "" then d else v

/-- `controller.profileFromLabels`: the profile label value, or `"unknown"`
when the label is absent or empty (a nil Go map reads like an empty one). -/
def profileFromLabels (labels : StrMap) (key : String) : String :=
  match labels.lookup key with
  | some v => if v = "" then "unknown" else v
  | none => "unknown"

/-- `controller.buildVPASpec`: copy the profile spec and overwrite targetRef
with the workload coordinates. The Go conversion to an unstructured map
cannot fail on this data, so the embedding is total. -/
def buildVPASpec (profile : ProfileSpec) (targetGVK : GroupVersionKind)
    (workloadName : String) : VerticalPodAutoscalerSpec :=
  { profile with
    targetRef := some
      { apiVersion := targetGVK.groupVersionString
        kind := targetGVK.kind
        name := workloadName } }

/-- `controller.ownerRefsEqual`: `Semantic.DeepEqual` on the two slices, which
is element-wise structural equality. -/
def ownerRefsEqual (a b : List OwnerReference) : Bool :=
  a == b

/-- `metav1.GetControllerOf`: the first owner reference with
`controller == true`. -/
def getControllerOf (refs : List OwnerReference) : Option OwnerReference :=
  refs.find? (fun r => r.controller == some true)

/-- A workload object (Deployment, StatefulSet or DaemonSet) as the shared
reconciler reads it: name, namespace, uid and annotations. -/
structure Workload where
  name : String
  ns : String
  uid : String
  annotations : StrMap
deriving DecidableEq, Repr

/-- A VPA object as the operator reads and writes it: coordinates, labels,
owner references and spec. -/
structure VPAObject where
  name : String
  ns : String
  labels : StrMap
  ownerReferences : List OwnerReference
  spec : VerticalPodAutoscalerSpec
deriving DecidableEq, Repr

/-- The VPA objects currently in the cluster. -/
structure Cluster where
  vpas : List VPAObject
deriving DecidableEq, Repr

/-- A write call issued against the API server: a delete of the object at the
given coordinates, or a server-side apply of the given object. -/
inductive WriteOp where
  | delete (ns name : String)
  | apply (vpa : VPAObject)
deriving DecidableEq, Repr

/-- One increment of one of the Prometheus counters or gauges, with its label
values. -/
inductive CounterInc where
  | vpaSkipped (ns name kind reason : String)
  | vpaCreated (ns name kind profile : String)
  | vpaUpdated (ns name kind profile : String)
  | vpaDeletedObsolete (ns kind : String)
  | vpaDeletedOptOut (ns kind : String)
  | vpaDeletedWorkloadGone (ns kind : String)
  | vpaDeletedOrphaned (ns : String)
  | vpaDeletedOwnerGone (ns kind : String)
  | vpaManagedInc (ns profile : String)
  | vpaManagedDec (ns profile : String)
  | reconcileErrors (controller kind reason : String)
deriving DecidableEq, Repr

/-- Everything a reconcile emits besides its return value: API write calls,
Kubernetes events as (type, reason) pairs, and metric increments. -/
structure Effects where
  writes : List WriteOp
  events : List (String × String)
  counters : List CounterInc
deriving DecidableEq, Repr

def Effects.empty : Effects := ⟨[], [], []⟩

def Effects.app (a b : Effects) : Effects :=
  ⟨a.writes ++ b.writes, a.events ++ b.events, a.counters ++ b.counters⟩

/-- The value of `ctrl.Result{}, err`: this code base always returns an empty
result, so only the error matters. `none` is success. -/
structure ReconcileOutput where
  effects : Effects
  error : Option String
deriving DecidableEq, Repr

/-- `client.Get` on VPAs: the object at the coordinates, if any. -/
def getVPA (c : Cluster) (ns nm : String) : Option VPAObject :=
  c.vpas.find? (fun v => v.ns == ns && v.name == nm)

/-- A delete call: every object at the coordinates disappears. -/
def Cluster.deleteVPA (c : Cluster) (ns nm : String) : Cluster :=
  ⟨c.vpas.filter (fun v => !(v.ns == ns && v.name == nm))⟩

/-- Server-side apply with `force=true` of an object whose operator-owned
fields are fully populated: the object replaces whatever sits at its
coordinates. -/
def Cluster.applyVPA (c : Cluster) (v : VPAObject) : Cluster :=
  ⟨c.vpas.filter (fun u => !(u.ns == v.ns && u.name == v.name)) ++ [v]⟩

/-- `controller.listManagedVPAs`: the VPAs of the namespace that carry the
managed label with value `"true"` (a label selector match). -/
def listManagedVPAs (c : Cluster) (managedLabel ns : String) : List VPAObject :=
  c.vpas.filter (fun v => v.ns == ns && v.labels.lookup managedLabel == some "true")

/-- The owner reference written by `ctrl.SetControllerReference` for a
workload: apiVersion and kind of the workload GVK, name, uid, and both flags
set. In the repository it is only ever invoked on a freshly constructed VPA,
which has no owner references yet, so it cannot fail. -/
def controllerRef (w : Workload) (gvk : GroupVersionKind) : OwnerReference :=
  { apiVersion := gvk.groupVersionString
    kind := gvk.kind
    name := w.name
    uid := w.uid
    controller := some true
    blockOwnerDeletion := some true }

/-- `metav1.IsControlledBy`: the controller owner reference exists and its
uid equals the owner uid. -/
def isControlledBy (v : VPAObject) (w : Workload) : Bool :=
  match getControllerOf v.ownerReferences with
  | some r => r.uid == w.uid
  | none => false

/-- `controller.desiredVPAState`. -/
structure desiredVPAState where
  name : String
  profile : String
  labels : StrMap
  spec : VerticalPodAutoscalerSpec
deriving DecidableEq, Repr

/-- `controller.vpaNeedsUpdate` on two present objects: the spec, label map
or owner reference slice differs. (The Go nil-pointer guard is unreachable
on the call site, which passes two non-nil objects.) -/
def vpaNeedsUpdate (a b : VPAObject) : Bool :=
  !(a.spec == b.spec) || !(mapsEqual a.labels b.labels) || !(ownerRefsEqual a.ownerReferences b.ownerReferences)

/-- `controller.mergeVPA`: a fresh apply object carrying only the fields the
operator owns - coordinates of the existing object, existing labels merged
with the desired ones (desired wins), the desired spec verbatim, and a
controller owner reference pointing at the reconciled workload. -/
def mergeVPA (existing : VPAObject) (desired : desiredVPAState)
    (owner : Workload) (gvk : GroupVersionKind) : VPAObject :=
  { name := existing.name
    ns := existing.ns
    labels := MergeMaps existing.labels desired.labels
    ownerReferences := [controllerRef owner gvk]
    spec := desired.spec }

/-- The object built by `controller.createVPA` before it is applied. -/
def createVPAObject (owner : Workload) (desired : desiredVPAState)
    (gvk : GroupVersionKind) : VPAObject :=
  { name := desired.name
    ns := owner.ns
    labels := desired.labels
    ownerReferences := [controllerRef owner gvk]
    spec := desired.spec }

/-- `controller.buildDesiredVPA`, parameterised over the name renderer (the
Go code calls `RenderVPAName`): pick the profile template or the global
default, render it, and assemble name, labels and spec. A render failure
propagates. -/
def buildDesiredVPA (render : String → NameTemplateData → Except String String)
    (meta : MetaConfig) (profiles : ProfileConfig) (obj : Workload)
    (targetGVK : GroupVersionKind) (selectedProfile : String)
    (profile : Profile) : Except String desiredVPAState :=
  match render (DefaultIfZero profile.nameTemplate profiles.nameTemplate)
      ⟨obj.name, obj.ns, targetGVK.kind, selectedProfile⟩ with
  | .error e => .error e
  | .ok vpaName =>
    .ok { name := vpaName
          profile := selectedProfile
          labels := StrMap.set (StrMap.set [] meta.managedLabel "true") meta.profileKey selectedProfile
          spec := buildVPASpec profile.spec targetGVK obj.name }

/-- One iteration of the loop in `controller.DeleteObsoleteManagedVPAs`:
skip the VPA that carries the desired name, skip VPAs not controlled by this
workload, delete the rest. A delete call is always recorded; when the object
is already gone the call returns NotFound and the loop continues without
event or counters, exactly as the Go loop does. -/
def obsStep (meta : MetaConfig) (owner : Workload) (workloadKind keep : String)
    (acc : Cluster × Effects) (v : VPAObject) : Cluster × Effects :=
  if v.name == keep then acc
  else if !(isControlledBy v owner) then acc
  else
    match getVPA acc.1 v.ns v.name with
    | none => (acc.1, acc.2.app ⟨[.delete v.ns v.name], [], []⟩)
    | some _ =>
      (acc.1.deleteVPA v.ns v.name,
       acc.2.app ⟨[.delete v.ns v.name],
                  [("Normal", "DeletedObsoleteVPA")],
                  [.vpaDeletedObsolete owner.ns workloadKind,
                   .vpaManagedDec owner.ns (profileFromLabels v.labels meta.profileKey)]⟩)

/-- `controller.DeleteObsoleteManagedVPAs`: list the managed VPAs of the
namespace and run the loop above over the snapshot. -/
def DeleteObsoleteManagedVPAs (meta : MetaConfig) (c : Cluster)
    (owner : Workload) (workloadKind keep : String) : Cluster × Effects :=
  (listManagedVPAs c meta.managedLabel owner.ns).foldl
    (obsStep meta owner workloadKind keep) (c, Effects.empty)

/-- One iteration of the inner loop of `controller.deleteManagedVPAs`: an
owner reference whose kind and name match the workload (the controller flag
and uid are not consulted) triggers a delete of the VPA; NotFound continues
silently, a successful delete records the event and runs the callback. -/
def delRefStep (owner : Workload) (workloadKind : String)
    (onDelete : String → String → List CounterInc) (profileKey : String)
    (v : VPAObject) (acc : Cluster × Effects) (ref : OwnerReference) :
    Cluster × Effects :=
  if !(ref.kind == workloadKind && ref.name == owner.name) then acc
  else
    match getVPA acc.1 v.ns v.name with
    | none => (acc.1, acc.2.app ⟨[.delete v.ns v.name], [], []⟩)
    | some _ =>
      (acc.1.deleteVPA v.ns v.name,
       acc.2.app ⟨[.delete v.ns v.name],
                  [("Normal", "DeletedManagedVPA")],
                  onDelete owner.ns (profileFromLabels v.labels profileKey)⟩)

/-- The outer loop body of `controller.deleteManagedVPAs`: fold the inner
loop over the owner references of one listed VPA. -/
def delVPAStep (owner : Workload) (workloadKind : String)
    (onDelete : String → String → List CounterInc) (profileKey : String)
    (acc : Cluster × Effects) (v : VPAObject) : Cluster × Effects :=
  v.ownerReferences.foldl (delRefStep owner workloadKind onDelete profileKey v) acc

/-- `controller.deleteManagedVPAs`: list the managed VPAs of the namespace
and delete every one that carries an owner reference matching the workload
kind and name. -/
def deleteManagedVPAs (meta : MetaConfig) (c : Cluster) (owner : Workload)
    (workloadKind : String) (onDelete : String → String → List CounterInc) :
    Cluster × Effects :=
  (listManagedVPAs c meta.managedLabel owner.ns).foldl
    (delVPAStep owner workloadKind onDelete meta.profileKey) (c, Effects.empty)

/-- `controller.DeleteManagedVPAsForOptOut`. -/
def DeleteManagedVPAsForOptOut (meta : MetaConfig) (c : Cluster)
    (owner : Workload) (workloadKind : String) : Cluster × Effects :=
  deleteManagedVPAs meta c owner workloadKind
    (fun ns profile => [.vpaDeletedOptOut ns workloadKind, .vpaManagedDec ns profile])

/-- `controller.DeleteManagedVPAsForGoneWorkload`. -/
def DeleteManagedVPAsForGoneWorkload (meta : MetaConfig) (c : Cluster)
    (owner : Workload) (workloadKind : String) : Cluster × Effects :=
  deleteManagedVPAs meta c owner workloadKind
    (fun ns profile => [.vpaDeletedWorkloadGone ns workloadKind, .vpaManagedDec ns profile])

/-- `controller.BaseReconciler.ReconcileWorkload`, parameterised over the
name renderer. Returns the reconcile output (effects plus optional error)
and the cluster after the writes. The embedding follows the Go control flow
branch by branch; API calls themselves are modelled as succeeding, so the
only error path left is the render failure of `buildDesiredVPA`, which the
Go code returns as a non-nil error. -/
def ReconcileWorkload (render : String → NameTemplateData → Except String String)
    (meta : MetaConfig) (profiles : ProfileConfig) (c : Cluster)
    (obj : Workload) (targetGVK : GroupVersionKind) :
    ReconcileOutput × Cluster :=
  let profileName := (obj.annotations.lookup meta.profileKey).getD ""
  if profileName = "" then
    let cleaned := DeleteManagedVPAsForOptOut meta c obj targetGVK.kind
    (⟨Effects.app
        ⟨[], [("Warning", "ProfileAnnotationMissing")],
         [.vpaSkipped obj.ns obj.name targetGVK.kind "annotation_missing"]⟩
        cleaned.2,
      none⟩,
     cleaned.1)
  else
    let selectedProfile := DefaultIfZero profileName profiles.defaultProfile
    match profiles.entries.lookup selectedProfile with
    | none =>
      (⟨⟨[], [("Warning", "ProfileNotFound")],
         [.vpaSkipped obj.ns obj.name targetGVK.kind "profile_missing"]⟩,
        none⟩,
       c)
    | some profile =>
      match buildDesiredVPA render meta profiles obj targetGVK selectedProfile profile with
      | .error e => (⟨Effects.empty, some e⟩, c)
      | .ok desired =>
        let pruned := DeleteObsoleteManagedVPAs meta c obj targetGVK.kind desired.name
        match getVPA pruned.1 obj.ns desired.name with
        | none =>
          let vpa := createVPAObject obj desired targetGVK
          (⟨Effects.app pruned.2
              ⟨[.apply vpa], [("Normal", "VPACreated")],
               [.vpaCreated obj.ns obj.name targetGVK.kind selectedProfile,
                .vpaManagedInc obj.ns selectedProfile]⟩,
            none⟩,
           pruned.1.applyVPA vpa)
        | some existing =>
          let updated := mergeVPA existing desired obj targetGVK
          if !(vpaNeedsUpdate existing updated) then
            (⟨pruned.2, none⟩, pruned.1)
          else
            (⟨Effects.app pruned.2
                ⟨[.apply updated], [("Normal", "VPAUpdated")],
                 [.vpaUpdated obj.ns obj.name targetGVK.kind selectedProfile]⟩,
              none⟩,
             pruned.1.applyVPA updated)

/-- Result of a `client.Get`: the object, NotFound, or any other error. -/
inductive FetchResult (α : Type) where
  | found (a : α)
  | notFound
  | fetchErr (msg : String)
deriving DecidableEq, Repr

/-- `VPAReconciler.resolveOwnerGVK`: scan the owner references in order;
a reference whose controller flag is unset or false is skipped, a controller
reference with a supported kind resolves, any other controller reference is
skipped and the scan continues. -/
def resolveOwnerGVK (v : VPAObject) : Option (GroupVersionKind × String) :=
  v.ownerReferences.findSome? (fun r =>
    if !(r.controller == some true) then none
    else if r.kind == DeploymentGVK.kind then some (DeploymentGVK, r.name)
    else if r.kind == StatefulSetGVK.kind then some (StatefulSetGVK, r.name)
    else if r.kind == DaemonSetGVK.kind then some (DaemonSetGVK, r.name)
    else none)

/-- `VPAReconciler.skipUnmanaged`: true when the managed label is not
`"true"` (a missing label reads as the empty string in Go). -/
def skipUnmanaged (meta : MetaConfig) (v : VPAObject) : Bool :=
  !(v.labels.lookup meta.managedLabel == some "true")

/-- `VPAReconciler.Reconcile`, parameterised over the two cache reads it
performs: the fetch of the VPA named by the request and the fetch of the
resolved owner workload (by GVK, namespace and name). Deletes are modelled
as succeeding; the reconciler issues no other writes. -/
def VPAReconcile (meta : MetaConfig) (fetchVPA : FetchResult VPAObject)
    (fetchOwner : GroupVersionKind → String → String → FetchResult Workload) :
    ReconcileOutput :=
  match fetchVPA with
  | .fetchErr e =>
    ⟨⟨[], [], [.reconcileErrors "vpa" "VerticalPodAutoscaler" "get"]⟩, some e⟩
  | .notFound => ⟨Effects.empty, none⟩
  | .found vpa =>
    if skipUnmanaged meta vpa then ⟨Effects.empty, none⟩
    else
      match resolveOwnerGVK vpa with
      | none =>
        ⟨⟨[.delete vpa.ns vpa.name],
          [("Normal", "OrphanedVPA")],
          [.vpaDeletedOrphaned vpa.ns,
           .vpaManagedDec vpa.ns (profileFromLabels vpa.labels meta.profileKey)]⟩,
         none⟩
      | some (gvk, ownerName) =>
        match fetchOwner gvk vpa.ns ownerName with
        | .fetchErr e =>
          ⟨⟨[], [], [.reconcileErrors "vpa" "VerticalPodAutoscaler" "fetch_owner"]⟩, some e⟩
        | .notFound =>
          ⟨⟨[.delete vpa.ns vpa.name],
            [("Normal", "OwnerDeleted")],
            [.vpaDeletedOwnerGone vpa.ns gvk.kind,
             .vpaManagedDec vpa.ns (profileFromLabels vpa.labels meta.profileKey)]⟩,
           none⟩
        | .found _ => ⟨Effects.empty, none⟩

/-- A workload or VPA object as the event filters read it. -/
structure KObject where
  annotations : StrMap
  labels : StrMap
  ownerReferences : List OwnerReference
  deletionTimestamp : Option Nat
deriving DecidableEq, Repr

/-- A watch event handed to a predicate. -/
inductive WatchEvent where
  | create (o : KObject)
  | update (oldObj newObj : KObject)
  | delete (o : KObject)
  | generic (o : KObject)
deriving DecidableEq, Repr

/-- `predicates.annotationValue`: the value and whether it is present, where
present means the key exists with a non-empty value. -/
def annotationValue (o : KObject) (key : String) : String × Bool :=
  match o.annotations.lookup key with
  | none => ("", false)
  | some v => if v = "" then ("", false) else (v, true)

/-- `predicates.hasNonEmptyAnnotation` (suffix renamed for this file): the
key exists with a non-empty value. -/
def hasNonEmptyAnnotationVal (o : KObject) (key : String) : Bool :=
  (annotationValue o key).2

/-- `predicates.deletionJustStarted`: deletion requested on the new object
but not on the old. -/
def deletionJustStarted (oldObj newObj : KObject) : Bool :=
  oldObj.deletionTimestamp.isNone && newObj.deletionTimestamp.isSome

/-- `predicates.ProfileAnnotationLifecycle` as a pure predicate over watch
events, following the Go update logic line by line. -/
def ProfileAnnotationLifecycle (key : String) : WatchEvent → Bool
  | .create o => hasNonEmptyAnnotationVal o key
  | .update oldObj newObj =>
    let old := annotationValue oldObj key
    let new := annotationValue newObj key
    if old.2 ≠ new.2 then true
    else if !new.2 then false
    else if old.1 ≠ new.1 then true
    else if deletionJustStarted oldObj newObj then true
    else false
  | .delete o => hasNonEmptyAnnotationVal o key
  | .generic _ => false

/-- The workload trigger exactly as claim C8 words it (the Delete clause
reads "had the profile annotation", which the specification glossary defines
as opt-in, i.e. a non-empty value): Create fires on non-empty presence;
Update fires on a presence flip, on a value change while both sides are
opted in, or on a deletion start while the new object is opted in; Delete
fires on non-empty presence; Generic never fires. -/
def claimTrigger (key : String) : WatchEvent → Bool
  | .create o => hasNonEmptyAnnotationVal o key
  | .update oldObj newObj =>
    (hasNonEmptyAnnotationVal oldObj key != hasNonEmptyAnnotationVal newObj key)
    || (hasNonEmptyAnnotationVal oldObj key && hasNonEmptyAnnotationVal newObj key
        && !((annotationValue oldObj key).1 == (annotationValue newObj key).1))
    || (hasNonEmptyAnnotationVal newObj key && deletionJustStarted oldObj newObj)
  | .delete o => hasNonEmptyAnnotationVal o key
  | .generic _ => false

/-- The loop of `utils.truncateRunes`: Go ranges over the string, so `i` is
the BYTE offset at which each rune starts, and the loop breaks as soon as
that byte offset reaches `n`. -/
def truncLoop : List Char → Int → Int → List Char
  | [], _, _ => []
  | c :: rest, i, n =>
    if n ≤ i then []
    else c :: truncLoop rest (i + (c.utf8Size : Int)) n

/-- `utils.truncateRunes`: empty result for a non-positive limit, the whole
string when its rune count is within the limit, otherwise the loop above. -/
def truncateRunes (s : String) (n : Int) : String :=
  if n ≤ 0 then ""
  else if (s.length : Int) ≤ n then s
  else String.mk (truncLoop s.data 0 n)

/-- The prefix of exactly `min(n, runeCount(s))` runes, as claim C9 words
the helper (and empty for a non-positive limit). -/
def runePrefix (s : String) (n : Int) : String :=
  if n ≤ 0 then "" else String.mk (s.data.take n.toNat)

/-- A white-space character in the sense of Go `unicode.IsSpace` restricted
to the Latin-1 range it lists for `strings.TrimSpace`. -/
def isSpaceChar (c : Char) : Bool :=
  c == ' ' || c == '\t' || c == '\n' || c == '\x0b' || c == '\x0c' || c == '\r' ||
    c == '\x85' || c == '\xa0'

/-- Go `strings.TrimSpace`: drop white space from both ends. -/
def trimSpace (s : String) : String :=
  String.mk (((s.data.dropWhile isSpaceChar).reverse.dropWhile isSpaceChar).reverse)

/-- A lowercase-alphanumeric character, as the DNS-1123 grammar uses it. -/
def isLowerAlphaNum (c : Char) : Bool :=
  (('a' ≤ c && c ≤ 'z') || ('0' ≤ c && c ≤ '9'))

/-- A character allowed inside a DNS-1123 label. -/
def isDNS1123LabelChar (c : Char) : Bool :=
  isLowerAlphaNum c || c == '-'

/-- Split a character list at every dot, keeping empty chunks, as Go
`strings.Split(s, ".")` does. -/
def splitOnDot : List Char → List (List Char)
  | [] => [[]]
  | c :: rest =>
    if c = '.' then [] :: splitOnDot rest
    else
      match splitOnDot rest with
      | [] => [[c]]
      | h :: t => (c :: h) :: t

/-- One label of the DNS-1123 subdomain grammar:
`[a-z0-9]([-a-z0-9]*[a-z0-9])?`. -/
def isDNS1123Label (cs : List Char) : Bool :=
  match cs with
  | [] => false
  | _ => cs.all isDNS1123LabelChar && isLowerAlphaNum (cs.headD 'A') &&
      isLowerAlphaNum (cs.getLastD 'A')

/-- `validation.IsDNS1123Subdomain` as a boolean: total length at most 253
and every dot-separated chunk a valid label. Go checks the byte length, but
any string whose labels all validate is pure ASCII, where byte and rune
length agree, and any other string already fails the label check. -/
def isDNS1123Subdomain (s : String) : Bool :=
  decide (s.length ≤ 253) && (splitOnDot s.data).all isDNS1123Label

/-- `utils.RenderNameTemplate`, parameterised over the Go standard-library
template engine (`template.Parse` composed with `Execute`, with the helper
function map installed): reject a template that trims to empty, propagate
parse and render errors, and reject a rendered name that is not a DNS-1123
subdomain. -/
def RenderNameTemplate (parseExec : String → NameTemplateData → Except String String)
    (tmpl : String) (data : NameTemplateData) : Except String String :=
  if trimSpace tmpl = "" then .error "template must not be empty"
  else
    match parseExec tmpl data with
    | .error e => .error e
    | .ok name =>
      if isDNS1123Subdomain name then .ok name
      else .error ("rendered name is not a valid DNS-1123 subdomain: " ++ name)

/-- `controller.RenderVPAName` delegates to `utils.RenderNameTemplate`. -/
def RenderVPAName (parseExec : String → NameTemplateData → Except String String)
    (tmpl : String) (data : NameTemplateData) : Except String String :=
  RenderNameTemplate parseExec tmpl data

/-! Helper lemmas about the cluster model and the cleanup folds. -/

/-- No object with the given coordinates is in the cluster. -/
def noneAt (c : Cluster) (ns nm : String) : Prop :=
  ∀ u ∈ c.vpas, ¬(u.ns = ns ∧ u.name = nm)

theorem getVPA_eq_none_iff (c : Cluster) (ns nm : String) :
    getVPA c ns nm = none ↔ noneAt c ns nm := by
  unfold getVPA noneAt
  rw [List.find?_eq_none]
  constructor
  · intro h u hu hc
    exact h u hu (by simp [hc.1, hc.2])
  · intro h u hu hb
    simp at hb
    exact h u hu ⟨hb.1, hb.2⟩

theorem getVPA_eq_some (c : Cluster) (ns nm : String) (v : VPAObject)
    (h : getVPA c ns nm = some v) : v ∈ c.vpas ∧ v.ns = ns ∧ v.name = nm := by
  unfold getVPA at h
  have hm := List.mem_of_find?_eq_some h
  have hp := List.find?_some h
  simp at hp
  exact ⟨hm, hp.1, hp.2⟩

theorem noneAt_deleteVPA (c : Cluster) (ns nm : String) :
    noneAt (c.deleteVPA ns nm) ns nm := by
  intro u hu hc
  unfold Cluster.deleteVPA at hu
  simp [List.mem_filter] at hu
  rcases hu.2 with h | h
  · exact h hc.1
  · exact h hc.2

theorem deleteVPA_mem (c : Cluster) (ns nm : String) (u : VPAObject)
    (h : u ∈ (c.deleteVPA ns nm).vpas) : u ∈ c.vpas := by
  unfold Cluster.deleteVPA at h
  exact (List.mem_filter.1 h).1

theorem noneAt_of_subset (c c' : Cluster) (ns nm : String)
    (hsub : ∀ u ∈ c'.vpas, u ∈ c.vpas) (h : noneAt c ns nm) : noneAt c' ns nm :=
  fun u hu => h u (hsub u hu)

theorem applyVPA_mem (c : Cluster) (v u : VPAObject)
    (h : u ∈ (c.applyVPA v).vpas) : u ∈ c.vpas ∨ u = v := by
  unfold Cluster.applyVPA at h
  rw [List.mem_append] at h
  cases h with
  | inl h => exact Or.inl (List.mem_filter.1 h).1
  | inr h => simp at h; exact Or.inr h

theorem getVPA_applyVPA_self (c : Cluster) (v : VPAObject) :
    getVPA (c.applyVPA v) v.ns v.name = some v := by
  unfold getVPA Cluster.applyVPA
  induction c.vpas with
  | nil => simp
  | cons u rest ih =>
    by_cases h : u.ns = v.ns ∧ u.name = v.name
    · simp [List.filter, h.1, h.2] at ih ⊢
      exact ih
    · rw [not_and_or] at h
      rcases h with h | h
      · simp [List.filter, List.find?, beq_eq_false_iff_ne.2 h] at ih ⊢
        exact ih
      · by_cases h2 : u.ns = v.ns
        · simp [List.filter, List.find?, h2, beq_eq_false_iff_ne.2 h] at ih ⊢
          exact ih
        · simp [List.filter, List.find?, beq_eq_false_iff_ne.2 h2] at ih ⊢
          exact ih

theorem mem_listManagedVPAs (c : Cluster) (ml ns : String) (v : VPAObject) :
    v ∈ listManagedVPAs c ml ns ↔
      v ∈ c.vpas ∧ v.ns = ns ∧ v.labels.lookup ml = some "true" := by
  unfold listManagedVPAs
  rw [List.mem_filter]
  simp

theorem obsStep_mem (meta : MetaConfig) (w : Workload) (wk keep : String)
    (acc : Cluster × Effects) (v u : VPAObject)
    (h : u ∈ (obsStep meta w wk keep acc v).1.vpas) : u ∈ acc.1.vpas := by
  unfold obsStep at h
  split at h
  · exact h
  · split at h
    · exact h
    · split at h
      · exact h
      · exact deleteVPA_mem _ _ _ _ h

theorem foldl_obsStep_mem (meta : MetaConfig) (w : Workload) (wk keep : String) :
    ∀ (l : List VPAObject) (acc : Cluster × Effects) (u : VPAObject),
      u ∈ (l.foldl (obsStep meta w wk keep) acc).1.vpas → u ∈ acc.1.vpas := by
  intro l
  induction l with
  | nil => intro acc u h; exact h
  | cons v rest ih =>
    intro acc u h
    exact obsStep_mem meta w wk keep acc v u (ih (obsStep meta w wk keep acc v) u h)

theorem obsStep_noneAt (meta : MetaConfig) (w : Workload) (wk keep : String)
    (acc : Cluster × Effects) (v : VPAObject)
    (h1 : v.name ≠ keep) (h2 : isControlledBy v w = true) :
    noneAt (obsStep meta w wk keep acc v).1 v.ns v.name := by
  have hb : (v.name == keep) = false := beq_eq_false_iff_ne.2 h1
  unfold obsStep
  rw [hb, h2]
  simp only [Bool.not_true, Bool.false_eq_true, if_false]
  cases hg : getVPA acc.1 v.ns v.name with
  | none => exact (getVPA_eq_none_iff acc.1 v.ns v.name).1 hg
  | some x => exact noneAt_deleteVPA acc.1 v.ns v.name

theorem foldl_obsStep_noneAt (meta : MetaConfig) (w : Workload) (wk keep : String) :
    ∀ (l : List VPAObject) (acc : Cluster × Effects) (v : VPAObject),
      v ∈ l → v.name ≠ keep → isControlledBy v w = true →
      noneAt (l.foldl (obsStep meta w wk keep) acc).1 v.ns v.name := by
  intro l
  induction l with
  | nil => intro acc v hv; cases hv
  | cons v0 rest ih =>
    intro acc v hv h1 h2
    rw [List.foldl_cons]
    rcases List.mem_cons.1 hv with he | hm
    · subst he
      apply noneAt_of_subset _ _ _ _
        (fun u hu => foldl_obsStep_mem meta w wk keep rest _ u hu)
      exact obsStep_noneAt meta w wk keep acc v h1 h2
    · exact ih (obsStep meta w wk keep acc v0) v hm h1 h2

/-- After obsolete pruning, no managed VPA in the namespace, controlled by
this workload and carrying a name other than the kept one, remains. -/
theorem DeleteObsolete_cleared (meta : MetaConfig) (c : Cluster) (w : Workload)
    (wk keep : String) (u : VPAObject)
    (hu : u ∈ (DeleteObsoleteManagedVPAs meta c w wk keep).1.vpas)
    (hns : u.ns = w.ns) (hml : u.labels.lookup meta.managedLabel = some "true")
    (hctl : isControlledBy u w = true) (hname : u.name ≠ keep) : False := by
  unfold DeleteObsoleteManagedVPAs at hu
  have humem : u ∈ c.vpas := foldl_obsStep_mem meta w wk keep _ _ u hu
  have hlist : u ∈ listManagedVPAs c meta.managedLabel w.ns :=
    (mem_listManagedVPAs c meta.managedLabel w.ns u).2 ⟨humem, hns, hml⟩
  have hnone := foldl_obsStep_noneAt meta w wk keep
    (listManagedVPAs c meta.managedLabel w.ns) (c, Effects.empty) u hlist hname hctl
  exact hnone u hu ⟨rfl, rfl⟩

theorem obsStep_skip (meta : MetaConfig) (w : Workload) (wk keep : String)
    (acc : Cluster × Effects) (v : VPAObject)
    (h : v.name = keep ∨ isControlledBy v w = false) :
    obsStep meta w wk keep acc v = acc := by
  unfold obsStep
  rcases h with h | h
  · rw [beq_iff_eq.mpr h]
    simp
  · rw [h]
    simp

theorem foldl_obsStep_noop (meta : MetaConfig) (w : Workload) (wk keep : String) :
    ∀ (l : List VPAObject) (acc : Cluster × Effects),
      (∀ v ∈ l, v.name = keep ∨ isControlledBy v w = false) →
      l.foldl (obsStep meta w wk keep) acc = acc := by
  intro l
  induction l with
  | nil => intro acc _; rfl
  | cons v0 rest ih =>
    intro acc h
    rw [List.foldl_cons, obsStep_skip meta w wk keep acc v0 (h v0 (List.mem_cons_self v0 rest))]
    exact ih acc (fun v hv => h v (List.mem_cons_of_mem v0 hv))

theorem obsStep_writes (meta : MetaConfig) (w : Workload) (wk keep : String)
    (acc : Cluster × Effects) (v : VPAObject) (wop : WriteOp)
    (h : wop ∈ (obsStep meta w wk keep acc v).2.writes) :
    wop ∈ acc.2.writes ∨ wop = .delete v.ns v.name := by
  unfold obsStep at h
  split at h
  · exact Or.inl h
  · split at h
    · exact Or.inl h
    · split at h
      · rcases List.mem_append.1 h with h | h
        · exact Or.inl h
        · simp at h; exact Or.inr h
      · rcases List.mem_append.1 h with h | h
        · exact Or.inl h
        · simp at h; exact Or.inr h

theorem foldl_obsStep_writes (meta : MetaConfig) (w : Workload) (wk keep : String) :
    ∀ (l : List VPAObject) (acc : Cluster × Effects) (wop : WriteOp),
      wop ∈ (l.foldl (obsStep meta w wk keep) acc).2.writes →
      wop ∈ acc.2.writes ∨ ∃ v ∈ l, wop = WriteOp.delete v.ns v.name := by
  intro l
  induction l with
  | nil => intro acc wop h; exact Or.inl h
  | cons v0 rest ih =>
    intro acc wop h
    rcases ih (obsStep meta w wk keep acc v0) wop h with h | ⟨v, hv, he⟩
    · rcases obsStep_writes meta w wk keep acc v0 wop h with h | h
      · exact Or.inl h
      · exact Or.inr ⟨v0, List.mem_cons_self v0 rest, h⟩
    · exact Or.inr ⟨v, List.mem_cons_of_mem v0 hv, he⟩

/-- The owner-reference condition the opt-out cleanup actually tests: some
reference (controller flag irrelevant) has the workload kind and name. -/
def anyOwnerMatch (v : VPAObject) (wk wname : String) : Bool :=
  v.ownerReferences.any (fun r => r.kind == wk && r.name == wname)

theorem delRefStep_mem (w : Workload) (wk : String)
    (cb : String → String → List CounterInc) (pk : String) (v : VPAObject)
    (acc : Cluster × Effects) (r : OwnerReference) (u : VPAObject)
    (h : u ∈ (delRefStep w wk cb pk v acc r).1.vpas) : u ∈ acc.1.vpas := by
  unfold delRefStep at h
  split at h
  · exact h
  · split at h
    · exact h
    · exact deleteVPA_mem _ _ _ _ h

theorem foldl_delRefStep_mem (w : Workload) (wk : String)
    (cb : String → String → List CounterInc) (pk : String) (v : VPAObject) :
    ∀ (refs : List OwnerReference) (acc : Cluster × Effects) (u : VPAObject),
      u ∈ (refs.foldl (delRefStep w wk cb pk v) acc).1.vpas → u ∈ acc.1.vpas := by
  intro refs
  induction refs with
  | nil => intro acc u h; exact h
  | cons r rest ih =>
    intro acc u h
    exact delRefStep_mem w wk cb pk v acc r u (ih (delRefStep w wk cb pk v acc r) u h)

theorem delVPAStep_mem (w : Workload) (wk : String)
    (cb : String → String → List CounterInc) (pk : String)
    (acc : Cluster × Effects) (v u : VPAObject)
    (h : u ∈ (delVPAStep w wk cb pk acc v).1.vpas) : u ∈ acc.1.vpas :=
  foldl_delRefStep_mem w wk cb pk v v.ownerReferences acc u h

theorem foldl_delVPAStep_mem (w : Workload) (wk : String)
    (cb : String → String → List CounterInc) (pk : String) :
    ∀ (l : List VPAObject) (acc : Cluster × Effects) (u : VPAObject),
      u ∈ (l.foldl (delVPAStep w wk cb pk) acc).1.vpas → u ∈ acc.1.vpas := by
  intro l
  induction l with
  | nil => intro acc u h; exact h
  | cons v0 rest ih =>
    intro acc u h
    exact delVPAStep_mem w wk cb pk acc v0 u (ih (delVPAStep w wk cb pk acc v0) u h)

theorem delRefStep_noneAt (w : Workload) (wk : String)
    (cb : String → String → List CounterInc) (pk : String) (v : VPAObject)
    (acc : Cluster × Effects) (r : OwnerReference)
    (h : (r.kind == wk && r.name == w.name) = true) :
    noneAt (delRefStep w wk cb pk v acc r).1 v.ns v.name := by
  unfold delRefStep
  rw [h]
  simp only [Bool.not_true, Bool.false_eq_true, if_false]
  cases hg : getVPA acc.1 v.ns v.name with
  | none => exact (getVPA_eq_none_iff acc.1 v.ns v.name).1 hg
  | some x => exact noneAt_deleteVPA acc.1 v.ns v.name

theorem foldl_delRefStep_noneAt (w : Workload) (wk : String)
    (cb : String → String → List CounterInc) (pk : String) (v : VPAObject) :
    ∀ (refs : List OwnerReference) (acc : Cluster × Effects),
      (∃ r ∈ refs, (r.kind == wk && r.name == w.name) = true) →
      noneAt (refs.foldl (delRefStep w wk cb pk v) acc).1 v.ns v.name := by
  intro refs
  induction refs with
  | nil =>
    intro acc h
    obtain ⟨r, hr, _⟩ := h
    cases hr
  | cons r rest ih =>
    intro acc h
    rw [List.foldl_cons]
    obtain ⟨r0, hr0, hm⟩ := h
    rcases List.mem_cons.1 hr0 with he | hmem
    · subst he
      apply noneAt_of_subset _ _ _ _
        (fun u hu => foldl_delRefStep_mem w wk cb pk v rest _ u hu)
      exact delRefStep_noneAt w wk cb pk v acc r0 hm
    · exact ih (delRefStep w wk cb pk v acc r) ⟨r0, hmem, hm⟩

theorem delVPAStep_noneAt (w : Workload) (wk : String)
    (cb : String → String → List CounterInc) (pk : String)
    (acc : Cluster × Effects) (v : VPAObject)
    (h : anyOwnerMatch v wk w.name = true) :
    noneAt (delVPAStep w wk cb pk acc v).1 v.ns v.name := by
  unfold anyOwnerMatch at h
  rw [List.any_eq_true] at h
  exact foldl_delRefStep_noneAt w wk cb pk v v.ownerReferences acc h

theorem foldl_delVPAStep_noneAt (w : Workload) (wk : String)
    (cb : String → String → List CounterInc) (pk : String) :
    ∀ (l : List VPAObject) (acc : Cluster × Effects) (v : VPAObject),
      v ∈ l → anyOwnerMatch v wk w.name = true →
      noneAt (l.foldl (delVPAStep w wk cb pk) acc).1 v.ns v.name := by
  intro l
  induction l with
  | nil => intro acc v hv; cases hv
  | cons v0 rest ih =>
    intro acc v hv hm
    rw [List.foldl_cons]
    rcases List.mem_cons.1 hv with he | hmem
    · subst he
      apply noneAt_of_subset _ _ _ _
        (fun u hu => foldl_delVPAStep_mem w wk cb pk rest _ u hu)
      exact delVPAStep_noneAt w wk cb pk acc v hm
    · exact ih (delVPAStep w wk cb pk acc v0) v hmem hm

/-- After opt-out or workload-gone cleanup, no managed VPA of the namespace
with any owner reference matching the workload kind and name remains. -/
theorem deleteManagedVPAs_cleared (meta : MetaConfig) (c : Cluster)
    (w : Workload) (wk : String) (cb : String → String → List CounterInc)
    (u : VPAObject) (hu : u ∈ (deleteManagedVPAs meta c w wk cb).1.vpas)
    (hns : u.ns = w.ns) (hml : u.labels.lookup meta.managedLabel = some "true")
    (hm : anyOwnerMatch u wk w.name = true) : False := by
  unfold deleteManagedVPAs at hu
  have humem : u ∈ c.vpas := foldl_delVPAStep_mem w wk cb meta.profileKey _ _ u hu
  have hlist : u ∈ listManagedVPAs c meta.managedLabel w.ns :=
    (mem_listManagedVPAs c meta.managedLabel w.ns u).2 ⟨humem, hns, hml⟩
  have hnone := foldl_delVPAStep_noneAt w wk cb meta.profileKey
    (listManagedVPAs c meta.managedLabel w.ns) (c, Effects.empty) u hlist hm
  exact hnone u hu ⟨rfl, rfl⟩

theorem delRefStep_skip (w : Workload) (wk : String)
    (cb : String → String → List CounterInc) (pk : String) (v : VPAObject)
    (acc : Cluster × Effects) (r : OwnerReference)
    (h : (r.kind == wk && r.name == w.name) = false) :
    delRefStep w wk cb pk v acc r = acc := by
  unfold delRefStep
  rw [h]
  simp

theorem foldl_delRefStep_noop (w : Workload) (wk : String)
    (cb : String → String → List CounterInc) (pk : String) (v : VPAObject) :
    ∀ (refs : List OwnerReference) (acc : Cluster × Effects),
      (∀ r ∈ refs, (r.kind == wk && r.name == w.name) = false) →
      refs.foldl (delRefStep w wk cb pk v) acc = acc := by
  intro refs
  induction refs with
  | nil => intro acc _; rfl
  | cons r rest ih =>
    intro acc h
    rw [List.foldl_cons, delRefStep_skip w wk cb pk v acc r (h r (List.mem_cons_self r rest))]
    exact ih acc (fun r2 hr => h r2 (List.mem_cons_of_mem r hr))

theorem delVPAStep_skip (w : Workload) (wk : String)
    (cb : String → String → List CounterInc) (pk : String)
    (acc : Cluster × Effects) (v : VPAObject)
    (h : anyOwnerMatch v wk w.name = false) :
    delVPAStep w wk cb pk acc v = acc := by
  unfold delVPAStep
  unfold anyOwnerMatch at h
  rw [List.any_eq_false] at h
  apply foldl_delRefStep_noop w wk cb pk v v.ownerReferences acc
  intro r hr
  simpa using h r hr

theorem foldl_delVPAStep_noop (w : Workload) (wk : String)
    (cb : String → String → List CounterInc) (pk : String) :
    ∀ (l : List VPAObject) (acc : Cluster × Effects),
      (∀ v ∈ l, anyOwnerMatch v wk w.name = false) →
      l.foldl (delVPAStep w wk cb pk) acc = acc := by
  intro l
  induction l with
  | nil => intro acc _; rfl
  | cons v0 rest ih =>
    intro acc h
    rw [List.foldl_cons, delVPAStep_skip w wk cb pk acc v0 (h v0 (List.mem_cons_self v0 rest))]
    exact ih acc (fun v hv => h v (List.mem_cons_of_mem v0 hv))

theorem delRefStep_writes (w : Workload) (wk : String)
    (cb : String → String → List CounterInc) (pk : String) (v : VPAObject)
    (acc : Cluster × Effects) (r : OwnerReference) (wop : WriteOp)
    (h : wop ∈ (delRefStep w wk cb pk v acc r).2.writes) :
    wop ∈ acc.2.writes ∨
      (wop = .delete v.ns v.name ∧ (r.kind == wk && r.name == w.name) = true) := by
  unfold delRefStep at h
  split at h
  · exact Or.inl h
  · rename_i hguard0
    have hguard : (r.kind == wk && r.name == w.name) = true := by
      cases hb : (r.kind == wk && r.name == w.name) with
      | false => rw [hb] at hguard0; exact absurd hguard0 (by decide)
      | true => rfl
    split at h
    · rcases List.mem_append.1 h with h | h
      · exact Or.inl h
      · simp at h; exact Or.inr ⟨h, hguard⟩
    · rcases List.mem_append.1 h with h | h
      · exact Or.inl h
      · simp at h; exact Or.inr ⟨h, hguard⟩

theorem delVPAStep_writes (w : Workload) (wk : String)
    (cb : String → String → List CounterInc) (pk : String)
    (acc : Cluster × Effects) (v : VPAObject) (wop : WriteOp)
    (h : wop ∈ (delVPAStep w wk cb pk acc v).2.writes) :
    wop ∈ acc.2.writes ∨
      (wop = .delete v.ns v.name ∧ anyOwnerMatch v wk w.name = true) := by
  unfold delVPAStep at h
  revert acc
  have haux : ∀ (refs : List OwnerReference) (acc : Cluster × Effects),
      wop ∈ (refs.foldl (delRefStep w wk cb pk v) acc).2.writes →
      wop ∈ acc.2.writes ∨
        (wop = .delete v.ns v.name ∧ ∃ r ∈ refs, (r.kind == wk && r.name == w.name) = true) := by
    intro refs
    induction refs with
    | nil => intro acc h; exact Or.inl h
    | cons r rest ih =>
      intro acc h
      rw [List.foldl_cons] at h
      rcases ih (delRefStep w wk cb pk v acc r) h with h | ⟨he, r2, hr2, hm2⟩
      · rcases delRefStep_writes w wk cb pk v acc r wop h with h | ⟨he, hm⟩
        · exact Or.inl h
        · exact Or.inr ⟨he, r, List.mem_cons_self r rest, hm⟩
      · exact Or.inr ⟨he, r2, List.mem_cons_of_mem r hr2, hm2⟩
  intro acc h
  rcases haux v.ownerReferences acc h with h | ⟨he, r, hr, hm⟩
  · exact Or.inl h
  · refine Or.inr ⟨he, ?_⟩
    unfold anyOwnerMatch
    rw [List.any_eq_true]
    exact ⟨r, hr, hm⟩

theorem foldl_delVPAStep_writes (w : Workload) (wk : String)
    (cb : String → String → List CounterInc) (pk : String) :
    ∀ (l : List VPAObject) (acc : Cluster × Effects) (wop : WriteOp),
      wop ∈ (l.foldl (delVPAStep w wk cb pk) acc).2.writes →
      wop ∈ acc.2.writes ∨
        ∃ v ∈ l, wop = WriteOp.delete v.ns v.name ∧ anyOwnerMatch v wk w.name = true := by
  intro l
  induction l with
  | nil => intro acc wop h; exact Or.inl h
  | cons v0 rest ih =>
    intro acc wop h
    rcases ih (delVPAStep w wk cb pk acc v0) wop h with h | ⟨v, hv, he⟩
    · rcases delVPAStep_writes w wk cb pk acc v0 wop h with h | h
      · exact Or.inl h
      · exact Or.inr ⟨v0, List.mem_cons_self v0 rest, h⟩
    · exact Or.inr ⟨v, List.mem_cons_of_mem v0 hv, he⟩

/-! Lemmas about duplicate-free label maps and the merge operation. -/

/-- The keys of the association list are pairwise distinct; true of every
list that denotes a Go map built by the operator. -/
def NodupKeys (m : StrMap) : Prop :=
  (m.map (fun p => p.1)).Nodup

theorem ovLast_eq_none_of_not_memkey (m : StrMap) (k : String)
    (h : k ∉ m.map (fun p => p.1)) : ovLast m k = none := by
  induction m with
  | nil => rfl
  | cons p rest ih =>
    obtain ⟨a, b⟩ := p
    rw [List.map_cons, List.mem_cons] at h
    push_neg at h
    rw [ovLast, ih h.2, if_neg h.1]
    rfl

theorem ovLast_eq_lookup_of_nodup (m : StrMap) (k : String)
    (h : NodupKeys m) : ovLast m k = m.lookup k := by
  induction m with
  | nil => rfl
  | cons p rest ih =>
    obtain ⟨a, b⟩ := p
    unfold NodupKeys at h
    rw [List.map_cons, List.nodup_cons] at h
    rw [ovLast, lookup_cons]
    by_cases hk : k = a
    · rw [if_pos hk, ovLast_eq_none_of_not_memkey rest k (hk ▸ h.1), if_pos hk]
      rfl
    · rw [if_neg hk, if_neg hk, ih h.2]
      cases hr : rest.lookup k <;> rfl

theorem nodupKeys_set (m : StrMap) (k v : String) (h : NodupKeys m) :
    NodupKeys (m.set k v) := by
  unfold NodupKeys at h ⊢
  unfold StrMap.set
  rw [List.map_cons, List.nodup_cons]
  constructor
  · intro hmem
    rw [List.mem_map] at hmem
    obtain ⟨p, hp, he⟩ := hmem
    rw [List.mem_filter] at hp
    have h2 := hp.2
    simp at h2 he
    exact h2 he
  · have hsub : List.Sublist ((m.filter (fun p => !(p.1 == k))).map (fun p => p.1))
        (m.map (fun p => p.1)) := List.Sublist.map _ (List.filter_sublist m)
    exact List.Nodup.sublist hsub h

theorem nodupKeys_nil : NodupKeys [] := List.nodup_nil

/-- Copying a duplicate-free map onto itself changes no lookup. -/
theorem mapsEqual_self_MergeMaps (d : StrMap) (h : NodupKeys d) :
    mapsEqual d (MergeMaps d d) = true := by
  apply mapsEqual_of_forall
  intro k
  rw [lookup_MergeMaps, ovLast_eq_lookup_of_nodup d k h]
  cases hd : d.lookup k <;> simp [oor]

/-- The needs-update check is false exactly on semantically equal spec,
equal label maps and equal owner-reference slices. -/
theorem vpaNeedsUpdate_eq_false_iff (a b : VPAObject) :
    vpaNeedsUpdate a b = false ↔
      (a.spec = b.spec ∧ mapsEqual a.labels b.labels = true ∧
       a.ownerReferences = b.ownerReferences) := by
  unfold vpaNeedsUpdate ownerRefsEqual
  simp [Bool.or_eq_false_iff, and_assoc]

/-! Branch characterisations of `ReconcileWorkload`. -/

theorem ReconcileWorkload_optOut (render : String → NameTemplateData → Except String String)
    (meta : MetaConfig) (profiles : ProfileConfig) (c : Cluster) (obj : Workload)
    (gvk : GroupVersionKind)
    (hpn : (obj.annotations.lookup meta.profileKey).getD "" = "") :
    ReconcileWorkload render meta profiles c obj gvk =
      (⟨Effects.app
          ⟨[], [("Warning", "ProfileAnnotationMissing")],
           [.vpaSkipped obj.ns obj.name gvk.kind "annotation_missing"]⟩
          (DeleteManagedVPAsForOptOut meta c obj gvk.kind).2,
        none⟩,
       (DeleteManagedVPAsForOptOut meta c obj gvk.kind).1) := by
  unfold ReconcileWorkload
  rw [if_pos hpn]

theorem ReconcileWorkload_profileMissing (render : String → NameTemplateData → Except String String)
    (meta : MetaConfig) (profiles : ProfileConfig) (c : Cluster) (obj : Workload)
    (gvk : GroupVersionKind)
    (hpn : (obj.annotations.lookup meta.profileKey).getD "" ≠ "")
    (hent : profiles.entries.lookup
      (DefaultIfZero ((obj.annotations.lookup meta.profileKey).getD "") profiles.defaultProfile) = none) :
    ReconcileWorkload render meta profiles c obj gvk =
      (⟨⟨[], [("Warning", "ProfileNotFound")],
         [.vpaSkipped obj.ns obj.name gvk.kind "profile_missing"]⟩,
        none⟩,
       c) := by
  unfold ReconcileWorkload
  rw [if_neg hpn]
  simp only [hent]

theorem ReconcileWorkload_renderError (render : String → NameTemplateData → Except String String)
    (meta : MetaConfig) (profiles : ProfileConfig) (c : Cluster) (obj : Workload)
    (gvk : GroupVersionKind) (profile : Profile) (e : String)
    (hpn : (obj.annotations.lookup meta.profileKey).getD "" ≠ "")
    (hent : profiles.entries.lookup
      (DefaultIfZero ((obj.annotations.lookup meta.profileKey).getD "") profiles.defaultProfile) = some profile)
    (hbd : buildDesiredVPA render meta profiles obj gvk
      (DefaultIfZero ((obj.annotations.lookup meta.profileKey).getD "") profiles.defaultProfile) profile = .error e) :
    ReconcileWorkload render meta profiles c obj gvk = (⟨Effects.empty, some e⟩, c) := by
  unfold ReconcileWorkload
  rw [if_neg hpn]
  simp only [hent, hbd]

theorem ReconcileWorkload_create (render : String → NameTemplateData → Except String String)
    (meta : MetaConfig) (profiles : ProfileConfig) (c : Cluster) (obj : Workload)
    (gvk : GroupVersionKind) (profile : Profile) (desired : desiredVPAState)
    (hpn : (obj.annotations.lookup meta.profileKey).getD "" ≠ "")
    (hent : profiles.entries.lookup
      (DefaultIfZero ((obj.annotations.lookup meta.profileKey).getD "") profiles.defaultProfile) = some profile)
    (hbd : buildDesiredVPA render meta profiles obj gvk
      (DefaultIfZero ((obj.annotations.lookup meta.profileKey).getD "") profiles.defaultProfile) profile = .ok desired)
    (hget : getVPA (DeleteObsoleteManagedVPAs meta c obj gvk.kind desired.name).1 obj.ns desired.name = none) :
    ReconcileWorkload render meta profiles c obj gvk =
      (⟨Effects.app (DeleteObsoleteManagedVPAs meta c obj gvk.kind desired.name).2
          ⟨[.apply (createVPAObject obj desired gvk)], [("Normal", "VPACreated")],
           [.vpaCreated obj.ns obj.name gvk.kind
              (DefaultIfZero ((obj.annotations.lookup meta.profileKey).getD "") profiles.defaultProfile),
            .vpaManagedInc obj.ns
              (DefaultIfZero ((obj.annotations.lookup meta.profileKey).getD "") profiles.defaultProfile)]⟩,
        none⟩,
       (DeleteObsoleteManagedVPAs meta c obj gvk.kind desired.name).1.applyVPA
         (createVPAObject obj desired gvk)) := by
  unfold ReconcileWorkload
  rw [if_neg hpn]
  simp only [hent, hbd, hget]

theorem ReconcileWorkload_noUpdate (render : String → NameTemplateData → Except String String)
    (meta : MetaConfig) (profiles : ProfileConfig) (c : Cluster) (obj : Workload)
    (gvk : GroupVersionKind) (profile : Profile) (desired : desiredVPAState)
    (existing : VPAObject)
    (hpn : (obj.annotations.lookup meta.profileKey).getD "" ≠ "")
    (hent : profiles.entries.lookup
      (DefaultIfZero ((obj.annotations.lookup meta.profileKey).getD "") profiles.defaultProfile) = some profile)
    (hbd : buildDesiredVPA render meta profiles obj gvk
      (DefaultIfZero ((obj.annotations.lookup meta.profileKey).getD "") profiles.defaultProfile) profile = .ok desired)
    (hget : getVPA (DeleteObsoleteManagedVPAs meta c obj gvk.kind desired.name).1 obj.ns desired.name = some existing)
    (hnu : vpaNeedsUpdate existing (mergeVPA existing desired obj gvk) = false) :
    ReconcileWorkload render meta profiles c obj gvk =
      (⟨(DeleteObsoleteManagedVPAs meta c obj gvk.kind desired.name).2, none⟩,
       (DeleteObsoleteManagedVPAs meta c obj gvk.kind desired.name).1) := by
  unfold ReconcileWorkload
  rw [if_neg hpn]
  simp only [hent, hbd, hget, hnu, Bool.not_false, Bool.not_true, if_true, if_false]

theorem ReconcileWorkload_update (render : String → NameTemplateData → Except String String)
    (meta : MetaConfig) (profiles : ProfileConfig) (c : Cluster) (obj : Workload)
    (gvk : GroupVersionKind) (profile : Profile) (desired : desiredVPAState)
    (existing : VPAObject)
    (hpn : (obj.annotations.lookup meta.profileKey).getD "" ≠ "")
    (hent : profiles.entries.lookup
      (DefaultIfZero ((obj.annotations.lookup meta.profileKey).getD "") profiles.defaultProfile) = some profile)
    (hbd : buildDesiredVPA render meta profiles obj gvk
      (DefaultIfZero ((obj.annotations.lookup meta.profileKey).getD "") profiles.defaultProfile) profile = .ok desired)
    (hget : getVPA (DeleteObsoleteManagedVPAs meta c obj gvk.kind desired.name).1 obj.ns desired.name = some existing)
    (hnu : vpaNeedsUpdate existing (mergeVPA existing desired obj gvk) = true) :
    ReconcileWorkload render meta profiles c obj gvk =
      (⟨Effects.app (DeleteObsoleteManagedVPAs meta c obj gvk.kind desired.name).2
          ⟨[.apply (mergeVPA existing desired obj gvk)], [("Normal", "VPAUpdated")],
           [.vpaUpdated obj.ns obj.name gvk.kind
              (DefaultIfZero ((obj.annotations.lookup meta.profileKey).getD "") profiles.defaultProfile)]⟩,
        none⟩,
       (DeleteObsoleteManagedVPAs meta c obj gvk.kind desired.name).1.applyVPA
         (mergeVPA existing desired obj gvk)) := by
  unfold ReconcileWorkload
  rw [if_neg hpn]
  simp only [hent, hbd, hget, hnu, Bool.not_false, Bool.not_true, if_true, if_false,
    Bool.false_eq_true]

theorem buildDesiredVPA_components (render : String → NameTemplateData → Except String String)
    (meta : MetaConfig) (profiles : ProfileConfig) (obj : Workload)
    (gvk : GroupVersionKind) (sp : String) (profile : Profile) (desired : desiredVPAState)
    (h : buildDesiredVPA render meta profiles obj gvk sp profile = .ok desired) :
    desired.labels = StrMap.set (StrMap.set [] meta.managedLabel "true") meta.profileKey sp ∧
      desired.spec = buildVPASpec profile.spec gvk obj.name ∧ desired.profile = sp := by
  unfold buildDesiredVPA at h
  cases hr : render (DefaultIfZero profile.nameTemplate profiles.nameTemplate)
      ⟨obj.name, obj.ns, gvk.kind, sp⟩ with
  | error e => rw [hr] at h; cases h
  | ok nm =>
    rw [hr] at h
    have := Except.ok.inj h
    subst this
    exact ⟨rfl, rfl, rfl⟩

theorem desiredLabels_nodup (m pk p : String) :
    NodupKeys (StrMap.set (StrMap.set [] m "true") pk p) :=
  nodupKeys_set _ _ _ (nodupKeys_set _ _ _ nodupKeys_nil)

/-- The second merge against an object that already carries the merged
labels, desired spec and controller reference needs no update. -/
theorem vpaNeedsUpdate_merge_false (X : VPAObject) (d : desiredVPAState)
    (w : Workload) (gvk : GroupVersionKind)
    (hspec : X.spec = d.spec)
    (hrefs : X.ownerReferences = [controllerRef w gvk])
    (hlab : mapsEqual X.labels (MergeMaps X.labels d.labels) = true) :
    vpaNeedsUpdate X (mergeVPA X d w gvk) = false := by
  rw [vpaNeedsUpdate_eq_false_iff]
  exact ⟨hspec, hlab, hrefs⟩

theorem deleteManagedVPAs_cleared_bool (meta : MetaConfig) (c : Cluster)
    (w : Workload) (wk : String) (cb : String → String → List CounterInc)
    (v : VPAObject) (hv : v ∈ (deleteManagedVPAs meta c w wk cb).1.vpas)
    (hns : v.ns = w.ns) (hml : v.labels.lookup meta.managedLabel = some "true") :
    anyOwnerMatch v wk w.name = false := by
  by_cases hm : anyOwnerMatch v wk w.name = true
  · exact absurd (deleteManagedVPAs_cleared meta c w wk cb v hv hns hml hm) (fun h => h)
  · exact Bool.not_eq_true _ ▸ hm

theorem deleteManagedVPAs_noop_of_cleared (meta : MetaConfig) (c1 : Cluster)
    (w : Workload) (wk : String) (cb : String → String → List CounterInc)
    (h : ∀ v ∈ c1.vpas, v.ns = w.ns →
      v.labels.lookup meta.managedLabel = some "true" →
      anyOwnerMatch v wk w.name = false) :
    deleteManagedVPAs meta c1 w wk cb = (c1, Effects.empty) := by
  unfold deleteManagedVPAs
  apply foldl_delVPAStep_noop
  intro v hv
  obtain ⟨hmem, hns, hml⟩ := (mem_listManagedVPAs c1 meta.managedLabel w.ns v).1 hv
  exact h v hmem hns hml

/-- Running the opt-out cleanup twice: the second run lists nothing left to
delete and changes nothing. -/
theorem deleteManagedVPAs_idem (meta : MetaConfig) (c : Cluster) (w : Workload)
    (wk : String) (cb cb2 : String → String → List CounterInc) :
    deleteManagedVPAs meta (deleteManagedVPAs meta c w wk cb).1 w wk cb2 =
      ((deleteManagedVPAs meta c w wk cb).1, Effects.empty) :=
  deleteManagedVPAs_noop_of_cleared meta _ w wk cb2
    (fun v hv hns hml => deleteManagedVPAs_cleared_bool meta c w wk cb v hv hns hml)

theorem DeleteObsolete_cleared_disj (meta : MetaConfig) (c : Cluster)
    (w : Workload) (wk keep : String) (u : VPAObject)
    (hu : u ∈ (DeleteObsoleteManagedVPAs meta c w wk keep).1.vpas)
    (hns : u.ns = w.ns) (hml : u.labels.lookup meta.managedLabel = some "true") :
    u.name = keep ∨ isControlledBy u w = false := by
  by_cases hk : u.name = keep
  · exact Or.inl hk
  · by_cases hc2 : isControlledBy u w = true
    · exact absurd (DeleteObsolete_cleared meta c w wk keep u hu hns hml hc2 hk) (fun h => h)
    · exact Or.inr (Bool.not_eq_true _ ▸ hc2)

theorem DeleteObsolete_noop_of_cleared (meta : MetaConfig) (c1 : Cluster)
    (w : Workload) (wk keep : String)
    (h : ∀ v ∈ c1.vpas, v.ns = w.ns →
      v.labels.lookup meta.managedLabel = some "true" →
      v.name = keep ∨ isControlledBy v w = false) :
    DeleteObsoleteManagedVPAs meta c1 w wk keep = (c1, Effects.empty) := by
  unfold DeleteObsoleteManagedVPAs
  apply foldl_obsStep_noop
  intro v hv
  obtain ⟨hmem, hns, hml⟩ := (mem_listManagedVPAs c1 meta.managedLabel w.ns v).1 hv
  exact h v hmem hns hml

/-- A successful reconcile is idempotent: the immediate second run on the
written cluster issues no API write call. -/
theorem reconcile_second_run_no_writes
    (render : String → NameTemplateData → Except String String)
    (meta : MetaConfig) (profiles : ProfileConfig) (c : Cluster)
    (obj : Workload) (gvk : GroupVersionKind)
    (h : (ReconcileWorkload render meta profiles c obj gvk).1.error = none) :
    (ReconcileWorkload render meta profiles
      (ReconcileWorkload render meta profiles c obj gvk).2 obj gvk).1.effects.writes = [] := by
  by_cases hpn : (obj.annotations.lookup meta.profileKey).getD "" = ""
  · rw [ReconcileWorkload_optOut render meta profiles c obj gvk hpn]
    change (ReconcileWorkload render meta profiles
      (DeleteManagedVPAsForOptOut meta c obj gvk.kind).1 obj gvk).1.effects.writes = []
    rw [ReconcileWorkload_optOut render meta profiles
      (DeleteManagedVPAsForOptOut meta c obj gvk.kind).1 obj gvk hpn]
    unfold DeleteManagedVPAsForOptOut
    rw [deleteManagedVPAs_idem]
    rfl
  · cases hent : profiles.entries.lookup
        (DefaultIfZero ((obj.annotations.lookup meta.profileKey).getD "") profiles.defaultProfile) with
    | none =>
      rw [ReconcileWorkload_profileMissing render meta profiles c obj gvk hpn hent]
      change (ReconcileWorkload render meta profiles c obj gvk).1.effects.writes = []
      rw [ReconcileWorkload_profileMissing render meta profiles c obj gvk hpn hent]
    | some profile =>
      cases hbd : buildDesiredVPA render meta profiles obj gvk
          (DefaultIfZero ((obj.annotations.lookup meta.profileKey).getD "") profiles.defaultProfile)
          profile with
      | error e =>
        rw [ReconcileWorkload_renderError render meta profiles c obj gvk profile e hpn hent hbd] at h
        exact Option.noConfusion h
      | ok desired =>
        obtain ⟨hlab, hspec, hprof⟩ :=
          buildDesiredVPA_components render meta profiles obj gvk _ profile desired hbd
        cases hget : getVPA (DeleteObsoleteManagedVPAs meta c obj gvk.kind desired.name).1
            obj.ns desired.name with
        | none =>
          rw [ReconcileWorkload_create render meta profiles c obj gvk profile desired hpn hent hbd hget]
          change (ReconcileWorkload render meta profiles
            ((DeleteObsoleteManagedVPAs meta c obj gvk.kind desired.name).1.applyVPA
              (createVPAObject obj desired gvk)) obj gvk).1.effects.writes = []
          have hprune2 : DeleteObsoleteManagedVPAs meta
              ((DeleteObsoleteManagedVPAs meta c obj gvk.kind desired.name).1.applyVPA
                (createVPAObject obj desired gvk)) obj gvk.kind desired.name =
              ((DeleteObsoleteManagedVPAs meta c obj gvk.kind desired.name).1.applyVPA
                (createVPAObject obj desired gvk), Effects.empty) := by
            apply DeleteObsolete_noop_of_cleared
            intro v hv hns hml
            rcases applyVPA_mem _ _ _ hv with hv1 | hv2
            · exact DeleteObsolete_cleared_disj meta c obj gvk.kind desired.name v hv1 hns hml
            · subst hv2
              exact Or.inl rfl
          have hget2 : getVPA (DeleteObsoleteManagedVPAs meta
              ((DeleteObsoleteManagedVPAs meta c obj gvk.kind desired.name).1.applyVPA
                (createVPAObject obj desired gvk)) obj gvk.kind desired.name).1
              obj.ns desired.name = some (createVPAObject obj desired gvk) := by
            rw [hprune2]
            exact getVPA_applyVPA_self _ _
          have hnu : vpaNeedsUpdate (createVPAObject obj desired gvk)
              (mergeVPA (createVPAObject obj desired gvk) desired obj gvk) = false := by
            apply vpaNeedsUpdate_merge_false _ _ _ _ rfl rfl
            show mapsEqual desired.labels (MergeMaps desired.labels desired.labels) = true
            apply mapsEqual_self_MergeMaps
            rw [hlab]
            exact desiredLabels_nodup _ _ _
          rw [ReconcileWorkload_noUpdate render meta profiles _ obj gvk profile desired
            (createVPAObject obj desired gvk) hpn hent hbd hget2 hnu]
          rw [hprune2]
          rfl
        | some existing =>
          obtain ⟨hmem, hens, hename⟩ := getVPA_eq_some _ _ _ existing hget
          by_cases hnu : vpaNeedsUpdate existing (mergeVPA existing desired obj gvk) = true
          · rw [ReconcileWorkload_update render meta profiles c obj gvk profile desired
              existing hpn hent hbd hget hnu]
            change (ReconcileWorkload render meta profiles
              ((DeleteObsoleteManagedVPAs meta c obj gvk.kind desired.name).1.applyVPA
                (mergeVPA existing desired obj gvk)) obj gvk).1.effects.writes = []
            have hprune2 : DeleteObsoleteManagedVPAs meta
                ((DeleteObsoleteManagedVPAs meta c obj gvk.kind desired.name).1.applyVPA
                  (mergeVPA existing desired obj gvk)) obj gvk.kind desired.name =
                ((DeleteObsoleteManagedVPAs meta c obj gvk.kind desired.name).1.applyVPA
                  (mergeVPA existing desired obj gvk), Effects.empty) := by
              apply DeleteObsolete_noop_of_cleared
              intro v hv hns hml
              rcases applyVPA_mem _ _ _ hv with hv1 | hv2
              · exact DeleteObsolete_cleared_disj meta c obj gvk.kind desired.name v hv1 hns hml
              · subst hv2
                exact Or.inl hename
            have hget2 : getVPA (DeleteObsoleteManagedVPAs meta
                ((DeleteObsoleteManagedVPAs meta c obj gvk.kind desired.name).1.applyVPA
                  (mergeVPA existing desired obj gvk)) obj gvk.kind desired.name).1
                obj.ns desired.name = some (mergeVPA existing desired obj gvk) := by
              rw [hprune2]
              have hg := getVPA_applyVPA_self
                (DeleteObsoleteManagedVPAs meta c obj gvk.kind desired.name).1
                (mergeVPA existing desired obj gvk)
              rw [show (mergeVPA existing desired obj gvk).ns = obj.ns from hens,
                show (mergeVPA existing desired obj gvk).name = desired.name from hename] at hg
              exact hg
            have hnu2 : vpaNeedsUpdate (mergeVPA existing desired obj gvk)
                (mergeVPA (mergeVPA existing desired obj gvk) desired obj gvk) = false := by
              apply vpaNeedsUpdate_merge_false _ _ _ _ rfl rfl
              exact mapsEqual_MergeMaps_again existing.labels desired.labels
            rw [ReconcileWorkload_noUpdate render meta profiles _ obj gvk profile desired
              (mergeVPA existing desired obj gvk) hpn hent hbd hget2 hnu2]
            rw [hprune2]
            rfl
          · have hnu' : vpaNeedsUpdate existing (mergeVPA existing desired obj gvk) = false :=
              Bool.not_eq_true _ ▸ hnu
            rw [ReconcileWorkload_noUpdate render meta profiles c obj gvk profile desired
              existing hpn hent hbd hget hnu']
            change (ReconcileWorkload render meta profiles
              (DeleteObsoleteManagedVPAs meta c obj gvk.kind desired.name).1 obj gvk).1.effects.writes = []
            have hprune2 : DeleteObsoleteManagedVPAs meta
                (DeleteObsoleteManagedVPAs meta c obj gvk.kind desired.name).1
                obj gvk.kind desired.name =
                ((DeleteObsoleteManagedVPAs meta c obj gvk.kind desired.name).1, Effects.empty) := by
              apply DeleteObsolete_noop_of_cleared
              intro v hv hns hml
              exact DeleteObsolete_cleared_disj meta c obj gvk.kind desired.name v hv hns hml
            have hget2 : getVPA (DeleteObsoleteManagedVPAs meta
                (DeleteObsoleteManagedVPAs meta c obj gvk.kind desired.name).1
                obj gvk.kind desired.name).1 obj.ns desired.name = some existing := by
              rw [hprune2]
              exact hget
            rw [ReconcileWorkload_noUpdate render meta profiles _ obj gvk profile desired
              existing hpn hent hbd hget2 hnu']
            rw [hprune2]
            rfl

theorem setset_lookup_first (m pk p : String) (h : m ≠ pk) :
    (StrMap.set (StrMap.set [] m "true") pk p).lookup m = some "true" := by
  rw [lookup_set, if_neg h, lookup_set, if_pos rfl]

theorem setset_lookup_second (m pk p : String) :
    (StrMap.set (StrMap.set [] m "true") pk p).lookup pk = some p := by
  rw [lookup_set, if_pos rfl]

theorem setset_lookup_other (m pk p k : String) (h1 : k ≠ m) (h2 : k ≠ pk) :
    (StrMap.set (StrMap.set [] m "true") pk p).lookup k = none := by
  rw [lookup_set, if_neg h2, lookup_set, if_neg h1]
  rfl

theorem merged_lookup_managed (a : StrMap) (m pk p : String) (h : m ≠ pk) :
    (MergeMaps a (StrMap.set (StrMap.set [] m "true") pk p)).lookup m = some "true" := by
  rw [lookup_MergeMaps, ovLast_eq_lookup_of_nodup _ _ (desiredLabels_nodup m pk p),
    setset_lookup_first m pk p h]
  rfl

theorem skipUnmanaged_eq_false_iff (meta : MetaConfig) (v : VPAObject) :
    skipUnmanaged meta v = false ↔ v.labels.lookup meta.managedLabel = some "true" := by
  unfold skipUnmanaged
  simp

theorem resolveOwnerGVK_eq_none_iff (v : VPAObject) :
    resolveOwnerGVK v = none ↔
      ∀ r ∈ v.ownerReferences, r.controller = some true →
        r.kind ≠ "Deployment" ∧ r.kind ≠ "StatefulSet" ∧ r.kind ≠ "DaemonSet" := by
  unfold resolveOwnerGVK
  rw [List.findSome?_eq_none_iff]
  constructor
  · intro h r hr hc
    have := h r hr
    rw [hc] at this
    simp only [beq_self_eq_true, Bool.not_true, Bool.false_eq_true, if_false] at this
    refine ⟨?_, ?_, ?_⟩ <;> intro he <;> rw [he] at this <;>
      simp [DeploymentGVK, StatefulSetGVK, DaemonSetGVK] at this
  · intro h r hr
    by_cases hc : r.controller = some true
    · obtain ⟨h1, h2, h3⟩ := h r hr hc
      rw [hc]
      simp only [beq_self_eq_true, Bool.not_true, Bool.false_eq_true, if_false]
      rw [if_neg (by simpa [DeploymentGVK] using h1),
        if_neg (by simpa [StatefulSetGVK] using h2),
        if_neg (by simpa [DaemonSetGVK] using h3)]
    · rw [if_pos]
      simp [hc]

theorem buildDesiredVPA_render_ok (render : String → NameTemplateData → Except String String)
    (meta : MetaConfig) (profiles : ProfileConfig) (obj : Workload)
    (gvk : GroupVersionKind) (sp : String) (profile : Profile) (desired : desiredVPAState)
    (h : buildDesiredVPA render meta profiles obj gvk sp profile = .ok desired) :
    render (DefaultIfZero profile.nameTemplate profiles.nameTemplate)
      ⟨obj.name, obj.ns, gvk.kind, sp⟩ = .ok desired.name := by
  unfold buildDesiredVPA at h
  cases hr : render (DefaultIfZero profile.nameTemplate profiles.nameTemplate)
      ⟨obj.name, obj.ns, gvk.kind, sp⟩ with
  | error e => rw [hr] at h; cases h
  | ok nm =>
    rw [hr] at h
    have := Except.ok.inj h
    subst this
    rfl

theorem RenderVPAName_ok_dns (parseExec : String → NameTemplateData → Except String String)
    (tmpl : String) (data : NameTemplateData) (nm : String)
    (h : RenderVPAName parseExec tmpl data = .ok nm) :
    isDNS1123Subdomain nm = true := by
  unfold RenderVPAName RenderNameTemplate at h
  split at h
  · cases h
  · split at h
    · cases h
    · split at h
      · rename_i hd
        have := Except.ok.inj h
        subst this
        exact hd
      · cases h

theorem mem_deleteVPA_of_ne (c : Cluster) (ns nm : String) (u : VPAObject)
    (hu : u ∈ c.vpas) (hne : ¬(u.ns = ns ∧ u.name = nm)) :
    u ∈ (c.deleteVPA ns nm).vpas := by
  unfold Cluster.deleteVPA
  rw [List.mem_filter]
  refine ⟨hu, ?_⟩
  show (!(u.ns == ns && u.name == nm)) = true
  rw [not_and_or] at hne
  rcases hne with h | h
  · simp [beq_eq_false_iff_ne.2 h]
  · simp [beq_eq_false_iff_ne.2 h]

theorem foldl_delRefStep_preserves (w : Workload) (wk : String)
    (cb : String → String → List CounterInc) (pk : String) (v : VPAObject) :
    ∀ (refs : List OwnerReference) (acc : Cluster × Effects) (u : VPAObject),
      u ∈ acc.1.vpas → ¬(u.ns = v.ns ∧ u.name = v.name) →
      u ∈ (refs.foldl (delRefStep w wk cb pk v) acc).1.vpas := by
  intro refs
  induction refs with
  | nil => intro acc u hu _; exact hu
  | cons r rest ih =>
    intro acc u hu hne
    rw [List.foldl_cons]
    apply ih _ u _ hne
    unfold delRefStep
    split
    · exact hu
    · split
      · exact hu
      · exact mem_deleteVPA_of_ne acc.1 v.ns v.name u hu hne

theorem delVPAStep_preserves (w : Workload) (wk : String)
    (cb : String → String → List CounterInc) (pk : String)
    (acc : Cluster × Effects) (v u : VPAObject) (hu : u ∈ acc.1.vpas)
    (hcase : ¬(u.ns = v.ns ∧ u.name = v.name) ∨ anyOwnerMatch v wk w.name = false) :
    u ∈ (delVPAStep w wk cb pk acc v).1.vpas := by
  rcases hcase with hne | hskip
  · exact foldl_delRefStep_preserves w wk cb pk v v.ownerReferences acc u hu hne
  · rw [delVPAStep_skip w wk cb pk acc v hskip]
    exact hu

theorem foldl_delVPAStep_preserves (w : Workload) (wk : String)
    (cb : String → String → List CounterInc) (pk : String) :
    ∀ (l : List VPAObject) (acc : Cluster × Effects) (u : VPAObject),
      u ∈ acc.1.vpas →
      (∀ v ∈ l, anyOwnerMatch v wk w.name = true → ¬(u.ns = v.ns ∧ u.name = v.name)) →
      u ∈ (l.foldl (delVPAStep w wk cb pk) acc).1.vpas := by
  intro l
  induction l with
  | nil => intro acc u hu _; exact hu
  | cons v0 rest ih =>
    intro acc u hu hl
    rw [List.foldl_cons]
    apply ih _ u _ (fun v hv => hl v (List.mem_cons_of_mem v0 hv))
    by_cases hm : anyOwnerMatch v0 wk w.name = true
    · exact delVPAStep_preserves w wk cb pk acc v0 u hu
        (Or.inl (hl v0 (List.mem_cons_self v0 rest) hm))
    · exact delVPAStep_preserves w wk cb pk acc v0 u hu
        (Or.inr (Bool.not_eq_true _ ▸ hm))

/-- Membership in the cluster after opt-out cleanup, assuming coordinates
are unique in the input cluster (as the API server guarantees): exactly the
VPAs that are not managed-in-namespace with a matching owner reference
survive. -/
theorem deleteManagedVPAs_mem_iff (meta : MetaConfig) (c : Cluster)
    (w : Workload) (wk : String) (cb : String → String → List CounterInc)
    (huniq : ∀ u ∈ c.vpas, ∀ v ∈ c.vpas, u.ns = v.ns → u.name = v.name → u = v)
    (u : VPAObject) :
    u ∈ (deleteManagedVPAs meta c w wk cb).1.vpas ↔
      u ∈ c.vpas ∧
        ¬(u.ns = w.ns ∧ u.labels.lookup meta.managedLabel = some "true" ∧
          anyOwnerMatch u wk w.name = true) := by
  constructor
  · intro hu
    refine ⟨?_, ?_⟩
    · unfold deleteManagedVPAs at hu
      exact foldl_delVPAStep_mem w wk cb meta.profileKey _ _ u hu
    · intro ⟨hns, hml, hm⟩
      exact deleteManagedVPAs_cleared meta c w wk cb u hu hns hml hm
  · intro ⟨hu, hnot⟩
    unfold deleteManagedVPAs
    apply foldl_delVPAStep_preserves w wk cb meta.profileKey _ _ u hu
    intro v hv hm hco
    obtain ⟨hvmem, hvns, hvml⟩ := (mem_listManagedVPAs c meta.managedLabel w.ns v).1 hv
    have : u = v := huniq u hu v hvmem hco.1 hco.2
    subst this
    exact hnot ⟨hvns, hvml, hm⟩

/-! Concrete example data used by witnesses and counterexamples, chosen to
mirror the operator defaults. -/

def exMeta : MetaConfig :=
  ⟨"autovpa.containeroo.ch/profile", "autovpa.containeroo.ch/managed"⟩

def exSpec : ProfileSpec := ⟨none, some ⟨some "Off", none⟩, none, []⟩

def exProfile : Profile := ⟨"", exSpec⟩

def exProfiles : ProfileConfig :=
  ⟨"default-template", "default", [("default", exProfile)]⟩

def exWorkload : Workload :=
  ⟨"demo", "ns1", "uid-1", [("autovpa.containeroo.ch/profile", "default")]⟩

/-- The renderer for the template `WorkloadName-Profile-vpa`, which also is
the shape the reconcile tests in the repository use. -/
def exRender : String → NameTemplateData → Except String String :=
  fun _ d => .ok (d.workloadName ++ "-" ++ d.profile ++ "-vpa")

def exDesired : desiredVPAState :=
  ⟨"demo-default-vpa", "default",
    StrMap.set (StrMap.set [] "autovpa.containeroo.ch/managed" "true")
      "autovpa.containeroo.ch/profile" "default",
    buildVPASpec exSpec DeploymentGVK "demo"⟩

/-! Claim theorems. -/

/-- Claim C1: the workload reconcile is idempotent - after a successful
reconcile, running `ReconcileWorkload` again on the written cluster with no
intervening change issues zero API write calls - and `vpaNeedsUpdate`
reports false exactly when the two objects have equal spec, equal label
maps and equal owner-reference slices. -/
theorem claim_C1 :
    (∀ (render : String → NameTemplateData → Except String String)
       (meta : MetaConfig) (profiles : ProfileConfig) (c : Cluster)
       (obj : Workload) (gvk : GroupVersionKind),
      (ReconcileWorkload render meta profiles c obj gvk).1.error = none →
      (ReconcileWorkload render meta profiles
        (ReconcileWorkload render meta profiles c obj gvk).2 obj gvk).1.effects.writes = [])
    ∧ (∀ a b : VPAObject,
      vpaNeedsUpdate a b = false ↔
        (a.spec = b.spec ∧ mapsEqual a.labels b.labels = true ∧
         a.ownerReferences = b.ownerReferences)) :=
  ⟨reconcile_second_run_no_writes, vpaNeedsUpdate_eq_false_iff⟩

/-- Witness for C1: a concrete create-then-reconcile sequence whose second
run issues no write. -/
theorem claim_C1_witness :
    (ReconcileWorkload exRender exMeta exProfiles
      (ReconcileWorkload exRender exMeta exProfiles ⟨[]⟩ exWorkload DeploymentGVK).2
      exWorkload DeploymentGVK).1.effects.writes = [] :=
  claim_C1.1 exRender exMeta exProfiles ⟨[]⟩ exWorkload DeploymentGVK (by decide)

/-- Claim C2: `buildDesiredVPA` is a pure function of its arguments that, on
a successful render of the effective template, returns exactly the rendered
name, exactly the two operator labels, and the profile spec with targetRef
overwritten to the workload coordinates; the embedded targetRef type has no
UID field at all. A render failure propagates. Determinism is inherent: the
embedding is a Lean function of its arguments. -/
theorem claim_C2 (render : String → NameTemplateData → Except String String)
    (meta : MetaConfig) (profiles : ProfileConfig) (w : Workload)
    (gvk : GroupVersionKind) (p : String) (profile : Profile)
    (hk : meta.managedLabel ≠ meta.profileKey) :
    (∀ nm, render (DefaultIfZero profile.nameTemplate profiles.nameTemplate)
        ⟨w.name, w.ns, gvk.kind, p⟩ = .ok nm →
      ∃ d, buildDesiredVPA render meta profiles w gvk p profile = .ok d ∧
        d.name = nm ∧ d.profile = p ∧
        d.labels.lookup meta.managedLabel = some "true" ∧
        d.labels.lookup meta.profileKey = some p ∧
        (∀ k, k ≠ meta.managedLabel → k ≠ meta.profileKey → d.labels.lookup k = none) ∧
        d.spec = { profile.spec with
          targetRef := some ⟨gvk.kind, w.name, gvk.groupVersionString⟩ })
    ∧ (∀ e, render (DefaultIfZero profile.nameTemplate profiles.nameTemplate)
        ⟨w.name, w.ns, gvk.kind, p⟩ = .error e →
      buildDesiredVPA render meta profiles w gvk p profile = .error e) := by
  constructor
  · intro nm hr
    unfold buildDesiredVPA
    rw [hr]
    refine ⟨_, rfl, rfl, rfl, setset_lookup_first _ _ _ hk, setset_lookup_second _ _ _,
      ?_, rfl⟩
    intro k h1 h2
    exact setset_lookup_other _ _ _ k h1 h2
  · intro e hr
    unfold buildDesiredVPA
    rw [hr]

/-- Witness for C2 at the concrete default configuration. -/
theorem claim_C2_witness :
    ∃ d, buildDesiredVPA exRender exMeta exProfiles exWorkload DeploymentGVK
        "default" exProfile = .ok d ∧
      d.name = "demo-default-vpa" ∧ d.profile = "default" ∧
      d.labels.lookup exMeta.managedLabel = some "true" ∧
      d.labels.lookup exMeta.profileKey = some "default" ∧
      (∀ k, k ≠ exMeta.managedLabel → k ≠ exMeta.profileKey → d.labels.lookup k = none) ∧
      d.spec = { exProfile.spec with
        targetRef := some ⟨"Deployment", "demo", "apps/v1"⟩ } :=
  (claim_C2 exRender exMeta exProfiles exWorkload DeploymentGVK "default" exProfile
    (by decide)).1 "demo-default-vpa" rfl

/-- Claim C3: the safety-net reconciler returns success on NotFound, skips
unmanaged VPAs without mutation, deletes orphans (no controller owner
reference with a supported kind) with the orphan event and counters, deletes
VPAs whose resolved owner fetch is NotFound with the owner-gone event and
counters, propagates any other owner fetch error as a retriable failure
without mutation, succeeds without mutation when the owner exists, and never
issues any write other than a delete. -/
theorem claim_C3 (meta : MetaConfig)
    (fo : GroupVersionKind → String → String → FetchResult Workload) :
    (VPAReconcile meta .notFound fo = ⟨Effects.empty, none⟩)
    ∧ (∀ v, v.labels.lookup meta.managedLabel ≠ some "true" →
        VPAReconcile meta (.found v) fo = ⟨Effects.empty, none⟩)
    ∧ (∀ v, v.labels.lookup meta.managedLabel = some "true" →
        (∀ r ∈ v.ownerReferences, r.controller = some true →
          r.kind ≠ "Deployment" ∧ r.kind ≠ "StatefulSet" ∧ r.kind ≠ "DaemonSet") →
        VPAReconcile meta (.found v) fo =
          ⟨⟨[.delete v.ns v.name], [("Normal", "OrphanedVPA")],
            [.vpaDeletedOrphaned v.ns,
             .vpaManagedDec v.ns (profileFromLabels v.labels meta.profileKey)]⟩, none⟩)
    ∧ (∀ v gvk onm, v.labels.lookup meta.managedLabel = some "true" →
        resolveOwnerGVK v = some (gvk, onm) →
        (fo gvk v.ns onm = .notFound →
          VPAReconcile meta (.found v) fo =
            ⟨⟨[.delete v.ns v.name], [("Normal", "OwnerDeleted")],
              [.vpaDeletedOwnerGone v.ns gvk.kind,
               .vpaManagedDec v.ns (profileFromLabels v.labels meta.profileKey)]⟩, none⟩)
        ∧ (∀ e, fo gvk v.ns onm = .fetchErr e →
            (VPAReconcile meta (.found v) fo).error = some e ∧
            (VPAReconcile meta (.found v) fo).effects.writes = [])
        ∧ (∀ w2, fo gvk v.ns onm = .found w2 →
            VPAReconcile meta (.found v) fo = ⟨Effects.empty, none⟩))
    ∧ (∀ fv wop, wop ∈ (VPAReconcile meta fv fo).effects.writes →
        ∃ ns nm, wop = WriteOp.delete ns nm) := by
  refine ⟨rfl, ?_, ?_, ?_, ?_⟩
  · intro v hv
    have hskip : skipUnmanaged meta v = true := by
      unfold skipUnmanaged
      simp [hv]
    simp [VPAReconcile, hskip]
  · intro v hv horph
    have hskip : skipUnmanaged meta v = false := (skipUnmanaged_eq_false_iff meta v).2 hv
    have hres : resolveOwnerGVK v = none := (resolveOwnerGVK_eq_none_iff v).2 horph
    simp [VPAReconcile, hskip, hres]
  · intro v gvk onm hv hres
    have hskip : skipUnmanaged meta v = false := (skipUnmanaged_eq_false_iff meta v).2 hv
    refine ⟨?_, ?_, ?_⟩
    · intro hfo
      simp [VPAReconcile, hskip, hres, hfo]
    · intro e hfo
      simp [VPAReconcile, hskip, hres, hfo]
    · intro w2 hfo
      simp [VPAReconcile, hskip, hres, hfo]
  · intro fv wop h
    cases fv with
    | fetchErr e => simp [VPAReconcile] at h
    | notFound => simp [VPAReconcile, Effects.empty] at h
    | found v =>
      simp only [VPAReconcile] at h
      by_cases hsk : skipUnmanaged meta v = true
      · simp [hsk, Effects.empty] at h
      · have hsk2 : skipUnmanaged meta v = false := Bool.not_eq_true _ ▸ hsk
        simp only [hsk2, Bool.false_eq_true, if_false] at h
        cases hres : resolveOwnerGVK v with
        | none =>
          rw [hres] at h
          simp at h
          exact ⟨v.ns, v.name, h⟩
        | some pr =>
          obtain ⟨gvk, onm⟩ := pr
          simp only [hres] at h
          cases hfo : fo gvk v.ns onm with
          | fetchErr e => rw [hfo] at h; simp at h
          | notFound =>
            rw [hfo] at h
            simp at h
            exact ⟨v.ns, v.name, h⟩
          | found w2 => rw [hfo] at h; simp [Effects.empty] at h

def exOrphan : VPAObject :=
  ⟨"orphan-vpa", "ns1", [("autovpa.containeroo.ch/managed", "true")], [], exSpec⟩

def exFetch : GroupVersionKind → String → String → FetchResult Workload :=
  fun _ _ _ => FetchResult.notFound

/-- Witness for C3: the orphan branch on a concrete managed VPA with no
owner references. -/
theorem claim_C3_witness :
    VPAReconcile exMeta (.found exOrphan) exFetch =
      ⟨⟨[.delete "ns1" "orphan-vpa"], [("Normal", "OrphanedVPA")],
        [.vpaDeletedOrphaned "ns1", .vpaManagedDec "ns1" "unknown"]⟩, none⟩ :=
  (claim_C3 exMeta exFetch).2.2.1 exOrphan (by decide) (by intro r hr; cases hr)

/-- Claim C8: the profile-annotation workload filter, viewed as a pure
predicate over events, coincides with the trigger the claim describes:
Create fires on a non-empty annotation value; Update fires on a non-empty
presence flip, on a value change while both sides are opted in, or on a
deletion start while the new object is opted in; Delete fires when the
object had the (non-empty, per the specification glossary) annotation;
Generic never fires. -/
theorem claim_C8 (key : String) (e : WatchEvent) :
    ProfileAnnotationLifecycle key e = claimTrigger key e := by
  cases e with
  | create o => rfl
  | delete o => rfl
  | generic o => rfl
  | update oldObj newObj =>
    simp only [ProfileAnnotationLifecycle, claimTrigger, hasNonEmptyAnnotationVal]
    rcases hA : annotationValue oldObj key with ⟨ov, oh⟩
    rcases hB : annotationValue newObj key with ⟨nv, nh⟩
    cases oh <;> cases nh <;> by_cases hv : ov = nv <;>
      cases hdj : deletionJustStarted oldObj newObj <;> simp [hv, hdj]

/-- Claim C9 evaluation: the Go loop breaks on the BYTE offset delivered by
`range`, so on the two-byte rune string `ééé` with limit 2 it keeps a single
rune, while the claimed behaviour (a prefix of exactly `min(n, runeCount)`
runes) demands two; the ASCII cases and the non-positive limit agree with
the claim. -/
theorem claim_C9 :
    truncateRunes "ééé" 2 = "é" ∧
    runePrefix "ééé" 2 = "éé" ∧
    truncateRunes "ééé" 2 ≠ runePrefix "ééé" 2 ∧
    truncateRunes "hello" 0 = "" ∧
    truncateRunes "hello" (-1) = "" ∧
    truncateRunes "hi" 5 = "hi" ∧
    truncateRunes "héllo" 2 = "hé" := by
  refine ⟨?_, ?_, ?_, rfl, rfl, rfl, ?_⟩ <;> decide

/-- Every apply issued by the workload reconcile carries a name that came
out of `RenderVPAName`, hence a DNS-1123 subdomain. -/
theorem reconcile_apply_name_dns (pe : String → NameTemplateData → Except String String)
    (meta : MetaConfig) (profiles : ProfileConfig) (c : Cluster)
    (obj : Workload) (gvk : GroupVersionKind) (v : VPAObject)
    (h : WriteOp.apply v ∈
      (ReconcileWorkload (RenderVPAName pe) meta profiles c obj gvk).1.effects.writes) :
    isDNS1123Subdomain v.name = true := by
  by_cases hpn : (obj.annotations.lookup meta.profileKey).getD "" = ""
  · rw [ReconcileWorkload_optOut (RenderVPAName pe) meta profiles c obj gvk hpn] at h
    simp only [Effects.app, List.nil_append] at h
    unfold DeleteManagedVPAsForOptOut deleteManagedVPAs at h
    rcases foldl_delVPAStep_writes obj gvk.kind _ meta.profileKey _ _ _ h with h | ⟨v2, _, he, _⟩
    · cases h
    · cases he
  · cases hent : profiles.entries.lookup
        (DefaultIfZero ((obj.annotations.lookup meta.profileKey).getD "") profiles.defaultProfile) with
    | none =>
      rw [ReconcileWorkload_profileMissing (RenderVPAName pe) meta profiles c obj gvk hpn hent] at h
      cases h
    | some profile =>
      cases hbd : buildDesiredVPA (RenderVPAName pe) meta profiles obj gvk
          (DefaultIfZero ((obj.annotations.lookup meta.profileKey).getD "") profiles.defaultProfile)
          profile with
      | error e =>
        rw [ReconcileWorkload_renderError (RenderVPAName pe) meta profiles c obj gvk
          profile e hpn hent hbd] at h
        cases h
      | ok desired =>
        have hdns : isDNS1123Subdomain desired.name = true :=
          RenderVPAName_ok_dns pe _ _ _
            (buildDesiredVPA_render_ok (RenderVPAName pe) meta profiles obj gvk _ profile desired hbd)
        cases hget : getVPA (DeleteObsoleteManagedVPAs meta c obj gvk.kind desired.name).1
            obj.ns desired.name with
        | none =>
          rw [ReconcileWorkload_create (RenderVPAName pe) meta profiles c obj gvk
            profile desired hpn hent hbd hget] at h
          simp only [Effects.app] at h
          rcases List.mem_append.1 h with h | h
          · unfold DeleteObsoleteManagedVPAs at h
            rcases foldl_obsStep_writes meta obj gvk.kind desired.name _ _ _ h with h | ⟨v2, _, he⟩
            · cases h
            · cases he
          · simp at h
            rw [h]
            exact hdns
        | some existing =>
          obtain ⟨hmem, hens, hename⟩ := getVPA_eq_some _ _ _ existing hget
          by_cases hnu : vpaNeedsUpdate existing (mergeVPA existing desired obj gvk) = true
          · rw [ReconcileWorkload_update (RenderVPAName pe) meta profiles c obj gvk
              profile desired existing hpn hent hbd hget hnu] at h
            simp only [Effects.app] at h
            rcases List.mem_append.1 h with h | h
            · unfold DeleteObsoleteManagedVPAs at h
              rcases foldl_obsStep_writes meta obj gvk.kind desired.name _ _ _ h with h | ⟨v2, _, he⟩
              · cases h
              · cases he
            · simp at h
              rw [h]
              show isDNS1123Subdomain existing.name = true
              rw [hename]
              exact hdns
          · have hnu2 : vpaNeedsUpdate existing (mergeVPA existing desired obj gvk) = false :=
              Bool.not_eq_true _ ▸ hnu
            rw [ReconcileWorkload_noUpdate (RenderVPAName pe) meta profiles c obj gvk
              profile desired existing hpn hent hbd hget hnu2] at h
            unfold DeleteObsoleteManagedVPAs at h
            rcases foldl_obsStep_writes meta obj gvk.kind desired.name _ _ _ h with h | ⟨v2, _, he⟩
            · cases h
            · cases he

/-- Claim C10: a name returned by `RenderVPAName` without error always
satisfies the DNS-1123 subdomain grammar; an empty or whitespace-only
template is rejected, and a rendered string violating the grammar makes the
function return an error. Consequently every VPA object the workload
reconciler applies (created or updated) carries a DNS-1123-valid name. -/
theorem claim_C10 (pe : String → NameTemplateData → Except String String)
    (tmpl : String) (data : NameTemplateData) :
    (∀ nm, RenderVPAName pe tmpl data = .ok nm → isDNS1123Subdomain nm = true)
    ∧ (trimSpace tmpl = "" → RenderVPAName pe tmpl data = .error "template must not be empty")
    ∧ (∀ raw, trimSpace tmpl ≠ "" → pe tmpl data = .ok raw → isDNS1123Subdomain raw = false →
        RenderVPAName pe tmpl data =
          .error ("rendered name is not a valid DNS-1123 subdomain: " ++ raw))
    ∧ (∀ (meta : MetaConfig) (profiles : ProfileConfig) (c : Cluster)
         (obj : Workload) (gvk : GroupVersionKind) (v : VPAObject),
        WriteOp.apply v ∈
          (ReconcileWorkload (RenderVPAName pe) meta profiles c obj gvk).1.effects.writes →
        isDNS1123Subdomain v.name = true) := by
  refine ⟨?_, ?_, ?_, ?_⟩
  · intro nm h
    exact RenderVPAName_ok_dns pe tmpl data nm h
  · intro h
    unfold RenderVPAName RenderNameTemplate
    rw [if_pos h]
  · intro raw h1 h2 h3
    unfold RenderVPAName RenderNameTemplate
    rw [if_neg h1]
    simp only [h2]
    rw [if_neg (by simp [h3])]
  · intro meta profiles c obj gvk v h
    exact reconcile_apply_name_dns pe meta profiles c obj gvk v h

/-- Witness for C10 at a concrete engine, template and data. -/
theorem claim_C10_witness :
    isDNS1123Subdomain "demo-vpa" = true :=
  (claim_C10 (fun _ d => .ok (d.workloadName ++ "-vpa")) "{{ .WorkloadName }}-vpa"
    ⟨"demo", "ns1", "Deployment", "default"⟩).1 "demo-vpa" (by rfl)

/-- A managed VPA at the desired name, controlled by a different workload
(`other`, uid `uid-2`). -/
def exCollide : VPAObject :=
  ⟨"demo-default-vpa", "ns1",
    [("autovpa.containeroo.ch/managed", "true"), ("autovpa.containeroo.ch/profile", "default")],
    [⟨"apps/v1", "Deployment", "other", "uid-2", some true, some true⟩],
    buildVPASpec exSpec DeploymentGVK "other"⟩

/-- Counterexample to claim C4: when the VPA at the desired name is
controlled by a different workload, the reconcile does NOT leave it alone -
it returns success but issues a server-side apply at exactly that VPA's
coordinates, rewriting its labels, spec and controller owner reference. -/
theorem claim_C4_counterexample :
    isControlledBy exCollide exWorkload = false ∧
    exCollide.labels.lookup exMeta.managedLabel = some "true" ∧
    (ReconcileWorkload exRender exMeta exProfiles ⟨[exCollide]⟩ exWorkload DeploymentGVK).1.error
      = none ∧
    (ReconcileWorkload exRender exMeta exProfiles ⟨[exCollide]⟩ exWorkload
        DeploymentGVK).1.effects.writes
      = [WriteOp.apply (mergeVPA exCollide exDesired exWorkload DeploymentGVK)] ∧
    (mergeVPA exCollide exDesired exWorkload DeploymentGVK).ns = "ns1" ∧
    (mergeVPA exCollide exDesired exWorkload DeploymentGVK).name = "demo-default-vpa" ∧
    (mergeVPA exCollide exDesired exWorkload DeploymentGVK).ownerReferences
      = [controllerRef exWorkload DeploymentGVK] := by
  refine ⟨?_, rfl, ?_, ?_, rfl, rfl, rfl⟩ <;> decide

/-- Claim C4 as amended: the source never detects the collision. Whenever
the VPA found at the desired name is not solely owned by the reconciled
workload via the freshly built controller reference, the reconcile still
returns success but issues one apply of the merged object, whose
ownerReferences slice is exactly the controller reference of the reconciled
workload - the colliding VPA is overwritten, not preserved. -/
theorem claim_C4_amended (render : String → NameTemplateData → Except String String)
    (meta : MetaConfig) (profiles : ProfileConfig) (c : Cluster) (obj : Workload)
    (gvk : GroupVersionKind) (profile : Profile) (desired : desiredVPAState)
    (existing : VPAObject)
    (hpn : (obj.annotations.lookup meta.profileKey).getD "" ≠ "")
    (hent : profiles.entries.lookup
      (DefaultIfZero ((obj.annotations.lookup meta.profileKey).getD "") profiles.defaultProfile)
      = some profile)
    (hbd : buildDesiredVPA render meta profiles obj gvk
      (DefaultIfZero ((obj.annotations.lookup meta.profileKey).getD "") profiles.defaultProfile)
      profile = .ok desired)
    (hget : getVPA (DeleteObsoleteManagedVPAs meta c obj gvk.kind desired.name).1
      obj.ns desired.name = some existing)
    (hrefs : existing.ownerReferences ≠ [controllerRef obj gvk]) :
    (ReconcileWorkload render meta profiles c obj gvk).1.error = none ∧
    (ReconcileWorkload render meta profiles c obj gvk).1.effects.writes =
      (DeleteObsoleteManagedVPAs meta c obj gvk.kind desired.name).2.writes ++
        [WriteOp.apply (mergeVPA existing desired obj gvk)] ∧
    (mergeVPA existing desired obj gvk).ownerReferences = [controllerRef obj gvk] := by
  have hnu : vpaNeedsUpdate existing (mergeVPA existing desired obj gvk) = true := by
    unfold vpaNeedsUpdate ownerRefsEqual mergeVPA
    simp [hrefs]
  rw [ReconcileWorkload_update render meta profiles c obj gvk profile desired existing
    hpn hent hbd hget hnu]
  exact ⟨rfl, rfl, rfl⟩

/-- Witness for the amended C4 at the concrete collision scenario. -/
theorem claim_C4_amended_witness :
    (ReconcileWorkload exRender exMeta exProfiles ⟨[exCollide]⟩ exWorkload DeploymentGVK).1.error
        = none ∧
    (ReconcileWorkload exRender exMeta exProfiles ⟨[exCollide]⟩ exWorkload
        DeploymentGVK).1.effects.writes =
      (DeleteObsoleteManagedVPAs exMeta ⟨[exCollide]⟩ exWorkload "Deployment"
          "demo-default-vpa").2.writes ++
        [WriteOp.apply (mergeVPA exCollide exDesired exWorkload DeploymentGVK)] ∧
    (mergeVPA exCollide exDesired exWorkload DeploymentGVK).ownerReferences
      = [controllerRef exWorkload DeploymentGVK] :=
  claim_C4_amended exRender exMeta exProfiles ⟨[exCollide]⟩ exWorkload DeploymentGVK
    exProfile exDesired exCollide (by decide) (by decide) (by rfl) (by rfl) (by decide)

/-- Every object the workload reconcile applies carries the managed label
with value `"true"` (given the startup guarantee that the two operator keys
differ). -/
theorem reconcile_apply_has_managed_label
    (render : String → NameTemplateData → Except String String)
    (meta : MetaConfig) (profiles : ProfileConfig) (c : Cluster)
    (obj : Workload) (gvk : GroupVersionKind) (v : VPAObject)
    (hk : meta.managedLabel ≠ meta.profileKey)
    (h : WriteOp.apply v ∈
      (ReconcileWorkload render meta profiles c obj gvk).1.effects.writes) :
    v.labels.lookup meta.managedLabel = some "true" := by
  by_cases hpn : (obj.annotations.lookup meta.profileKey).getD "" = ""
  · rw [ReconcileWorkload_optOut render meta profiles c obj gvk hpn] at h
    simp only [Effects.app, List.nil_append] at h
    unfold DeleteManagedVPAsForOptOut deleteManagedVPAs at h
    rcases foldl_delVPAStep_writes obj gvk.kind _ meta.profileKey _ _ _ h with h | ⟨v2, _, he, _⟩
    · cases h
    · cases he
  · cases hent : profiles.entries.lookup
        (DefaultIfZero ((obj.annotations.lookup meta.profileKey).getD "") profiles.defaultProfile) with
    | none =>
      rw [ReconcileWorkload_profileMissing render meta profiles c obj gvk hpn hent] at h
      cases h
    | some profile =>
      cases hbd : buildDesiredVPA render meta profiles obj gvk
          (DefaultIfZero ((obj.annotations.lookup meta.profileKey).getD "") profiles.defaultProfile)
          profile with
      | error e =>
        rw [ReconcileWorkload_renderError render meta profiles c obj gvk profile e hpn hent hbd] at h
        cases h
      | ok desired =>
        obtain ⟨hlab, hspec, hprof⟩ :=
          buildDesiredVPA_components render meta profiles obj gvk _ profile desired hbd
        cases hget : getVPA (DeleteObsoleteManagedVPAs meta c obj gvk.kind desired.name).1
            obj.ns desired.name with
        | none =>
          rw [ReconcileWorkload_create render meta profiles c obj gvk profile desired
            hpn hent hbd hget] at h
          simp only [Effects.app] at h
          rcases List.mem_append.1 h with h | h
          · unfold DeleteObsoleteManagedVPAs at h
            rcases foldl_obsStep_writes meta obj gvk.kind desired.name _ _ _ h with h | ⟨v2, _, he⟩
            · cases h
            · cases he
          · simp at h
            rw [h]
            show desired.labels.lookup meta.managedLabel = some "true"
            rw [hlab]
            exact setset_lookup_first _ _ _ hk
        | some existing =>
          by_cases hnu : vpaNeedsUpdate existing (mergeVPA existing desired obj gvk) = true
          · rw [ReconcileWorkload_update render meta profiles c obj gvk profile desired
              existing hpn hent hbd hget hnu] at h
            simp only [Effects.app] at h
            rcases List.mem_append.1 h with h | h
            · unfold DeleteObsoleteManagedVPAs at h
              rcases foldl_obsStep_writes meta obj gvk.kind desired.name _ _ _ h with h | ⟨v2, _, he⟩
              · cases h
              · cases he
            · simp at h
              rw [h]
              show (MergeMaps existing.labels desired.labels).lookup meta.managedLabel = some "true"
              rw [hlab]
              exact merged_lookup_managed _ _ _ _ hk
          · have hnu2 : vpaNeedsUpdate existing (mergeVPA existing desired obj gvk) = false :=
              Bool.not_eq_true _ ▸ hnu
            rw [ReconcileWorkload_noUpdate render meta profiles c obj gvk profile desired
              existing hpn hent hbd hget hnu2] at h
            unfold DeleteObsoleteManagedVPAs at h
            rcases foldl_obsStep_writes meta obj gvk.kind desired.name _ _ _ h with h | ⟨v2, _, he⟩
            · cases h
            · cases he

/-- Every delete the workload reconcile issues targets the coordinates of a
VPA that was managed (label value `"true"`) in the input cluster. -/
theorem reconcile_delete_targets_managed
    (render : String → NameTemplateData → Except String String)
    (meta : MetaConfig) (profiles : ProfileConfig) (c : Cluster)
    (obj : Workload) (gvk : GroupVersionKind) (ns nm : String)
    (h : WriteOp.delete ns nm ∈
      (ReconcileWorkload render meta profiles c obj gvk).1.effects.writes) :
    ∃ v ∈ c.vpas, v.ns = ns ∧ v.name = nm ∧
      v.labels.lookup meta.managedLabel = some "true" := by
  by_cases hpn : (obj.annotations.lookup meta.profileKey).getD "" = ""
  · rw [ReconcileWorkload_optOut render meta profiles c obj gvk hpn] at h
    simp only [Effects.app, List.nil_append] at h
    unfold DeleteManagedVPAsForOptOut deleteManagedVPAs at h
    rcases foldl_delVPAStep_writes obj gvk.kind _ meta.profileKey _ _ _ h with h | ⟨v2, hv2, he, _⟩
    · cases h
    · obtain ⟨hvm, hvns, hvml⟩ := (mem_listManagedVPAs c meta.managedLabel obj.ns v2).1 hv2
      obtain ⟨h1, h2⟩ := WriteOp.delete.inj he
      exact ⟨v2, hvm, h1.symm, h2.symm, hvml⟩
  · cases hent : profiles.entries.lookup
        (DefaultIfZero ((obj.annotations.lookup meta.profileKey).getD "") profiles.defaultProfile) with
    | none =>
      rw [ReconcileWorkload_profileMissing render meta profiles c obj gvk hpn hent] at h
      cases h
    | some profile =>
      cases hbd : buildDesiredVPA render meta profiles obj gvk
          (DefaultIfZero ((obj.annotations.lookup meta.profileKey).getD "") profiles.defaultProfile)
          profile with
      | error e =>
        rw [ReconcileWorkload_renderError render meta profiles c obj gvk profile e hpn hent hbd] at h
        cases h
      | ok desired =>
        have hobs : WriteOp.delete ns nm ∈
            (DeleteObsoleteManagedVPAs meta c obj gvk.kind desired.name).2.writes →
            ∃ v ∈ c.vpas, v.ns = ns ∧ v.name = nm ∧
              v.labels.lookup meta.managedLabel = some "true" := by
          intro h2
          unfold DeleteObsoleteManagedVPAs at h2
          rcases foldl_obsStep_writes meta obj gvk.kind desired.name _ _ _ h2 with h2 | ⟨v2, hv2, he⟩
          · cases h2
          · obtain ⟨hvm, hvns, hvml⟩ := (mem_listManagedVPAs c meta.managedLabel obj.ns v2).1 hv2
            obtain ⟨h1, h2⟩ := WriteOp.delete.inj he
            exact ⟨v2, hvm, h1.symm, h2.symm, hvml⟩
        cases hget : getVPA (DeleteObsoleteManagedVPAs meta c obj gvk.kind desired.name).1
            obj.ns desired.name with
        | none =>
          rw [ReconcileWorkload_create render meta profiles c obj gvk profile desired
            hpn hent hbd hget] at h
          simp only [Effects.app] at h
          rcases List.mem_append.1 h with h | h
          · exact hobs h
          · simp at h
        | some existing =>
          by_cases hnu : vpaNeedsUpdate existing (mergeVPA existing desired obj gvk) = true
          · rw [ReconcileWorkload_update render meta profiles c obj gvk profile desired
              existing hpn hent hbd hget hnu] at h
            simp only [Effects.app] at h
            rcases List.mem_append.1 h with h | h
            · exact hobs h
            · simp at h
          · have hnu2 : vpaNeedsUpdate existing (mergeVPA existing desired obj gvk) = false :=
              Bool.not_eq_true _ ▸ hnu
            rw [ReconcileWorkload_noUpdate render meta profiles c obj gvk profile desired
              existing hpn hent hbd hget hnu2] at h
            exact hobs h

/-- A user-owned VPA without the managed label, sitting at the rendered
desired name of the opted-in workload `demo`. -/
def exUnmanaged : VPAObject :=
  ⟨"demo-default-vpa", "ns1", [("team", "x")], [], ⟨none, none, none, []⟩⟩

/-- Counterexample to claim C5: an unmanaged VPA occupying the desired
rendered name of an opted-in workload IS written by the operator - the
reconcile issues a server-side apply at exactly its coordinates. -/
theorem claim_C5_counterexample :
    exUnmanaged.labels.lookup exMeta.managedLabel = none ∧
    getVPA ⟨[exUnmanaged]⟩ "ns1" "demo-default-vpa" = some exUnmanaged ∧
    (ReconcileWorkload exRender exMeta exProfiles ⟨[exUnmanaged]⟩ exWorkload
        DeploymentGVK).1.effects.writes
      = [WriteOp.apply (mergeVPA exUnmanaged exDesired exWorkload DeploymentGVK)] ∧
    (mergeVPA exUnmanaged exDesired exWorkload DeploymentGVK).ns = "ns1" ∧
    (mergeVPA exUnmanaged exDesired exWorkload DeploymentGVK).name = "demo-default-vpa" := by
  refine ⟨rfl, ?_, ?_, rfl, rfl⟩ <;> decide

/-- Claim C5 as amended: the operator never deletes a VPA that was not
managed in the cluster it read, and every VPA content it writes carries the
managed label (so it never creates an unmanaged VPA); the safety net never
writes anything for an unmanaged VPA. The original claim fails only in that
an unmanaged VPA occupying an opted-in workload's rendered desired name is
overwritten by the update apply. -/
theorem claim_C5_amended :
    (∀ (render : String → NameTemplateData → Except String String)
       (meta : MetaConfig) (profiles : ProfileConfig) (c : Cluster)
       (obj : Workload) (gvk : GroupVersionKind) (ns nm : String),
      WriteOp.delete ns nm ∈
        (ReconcileWorkload render meta profiles c obj gvk).1.effects.writes →
      ∃ v ∈ c.vpas, v.ns = ns ∧ v.name = nm ∧
        v.labels.lookup meta.managedLabel = some "true")
    ∧ (∀ (render : String → NameTemplateData → Except String String)
         (meta : MetaConfig) (profiles : ProfileConfig) (c : Cluster)
         (obj : Workload) (gvk : GroupVersionKind) (v : VPAObject),
        meta.managedLabel ≠ meta.profileKey →
        WriteOp.apply v ∈
          (ReconcileWorkload render meta profiles c obj gvk).1.effects.writes →
        v.labels.lookup meta.managedLabel = some "true")
    ∧ (∀ (meta : MetaConfig)
         (fo : GroupVersionKind → String → String → FetchResult Workload)
         (v : VPAObject),
        v.labels.lookup meta.managedLabel ≠ some "true" →
        (VPAReconcile meta (.found v) fo).effects.writes = []) := by
  refine ⟨?_, ?_, ?_⟩
  · intro render meta profiles c obj gvk ns nm h
    exact reconcile_delete_targets_managed render meta profiles c obj gvk ns nm h
  · intro render meta profiles c obj gvk v hk h
    exact reconcile_apply_has_managed_label render meta profiles c obj gvk v hk h
  · intro meta fo v hv
    have hskip : skipUnmanaged meta v = true := by
      unfold skipUnmanaged
      simp [hv]
    simp [VPAReconcile, hskip, Effects.empty]

/-- Witness for the amended C5: the apply issued at the concrete collision
scenario carries the managed label. -/
theorem claim_C5_amended_witness :
    (mergeVPA exUnmanaged exDesired exWorkload DeploymentGVK).labels.lookup
      exMeta.managedLabel = some "true" :=
  claim_C5_amended.2.1 exRender exMeta exProfiles ⟨[exUnmanaged]⟩ exWorkload DeploymentGVK
    (mergeVPA exUnmanaged exDesired exWorkload DeploymentGVK) (by decide) (by decide)

/-- A profile whose own name template renders the (non-DNS-1123) profile
name `Bad`; startup validation does not catch it because it validates with
placeholder data, not the live profile name. -/
def exBadProfile : Profile := ⟨"{{ .Profile }}", exSpec⟩

def exProfilesBad : ProfileConfig := ⟨"default-template", "default", [("Bad", exBadProfile)]⟩

def exWorkloadBad : Workload :=
  ⟨"demo", "ns1", "uid-1", [("autovpa.containeroo.ch/profile", "Bad")]⟩

/-- The template engine for the template `{{ .Profile }}`. -/
def exParse : String → NameTemplateData → Except String String := fun _ d => .ok d.profile

def exWorkloadGhost : Workload :=
  ⟨"demo2", "ns1", "uid-3", [("autovpa.containeroo.ch/profile", "ghost")]⟩

/-- Claim C6 evaluated: part (a) holds - an unknown profile name yields the
profile_missing skip counter, a warning event, no mutation and a nil error -
but part (b) fails in the code: a name-template render failure is returned
as a NON-nil error (with no event and no counter), so the framework
requeues, contradicting both the claim and the function's own comment that
it never requeues on configuration errors. -/
theorem claim_C6 :
    ((ReconcileWorkload (RenderVPAName exParse) exMeta exProfilesBad ⟨[]⟩ exWorkloadBad
        DeploymentGVK).1.error
      = some "rendered name is not a valid DNS-1123 subdomain: Bad"
     ∧ (ReconcileWorkload (RenderVPAName exParse) exMeta exProfilesBad ⟨[]⟩ exWorkloadBad
        DeploymentGVK).1.effects = Effects.empty)
    ∧ (ReconcileWorkload exRender exMeta exProfiles ⟨[]⟩ exWorkloadGhost DeploymentGVK
      = (⟨⟨[], [("Warning", "ProfileNotFound")],
           [.vpaSkipped "ns1" "demo2" "Deployment" "profile_missing"]⟩, none⟩, ⟨[]⟩)) := by
  refine ⟨⟨?_, ?_⟩, ?_⟩ <;> decide

/-- A managed VPA whose only owner reference has matching kind and name but
`controller = false`: not a controller-owner reference. -/
def exNonCtl : VPAObject :=
  ⟨"vpa-x", "ns1", [("autovpa.containeroo.ch/managed", "true")],
    [⟨"apps/v1", "Deployment", "demo", "uid-1", some false, none⟩],
    ⟨none, none, none, []⟩⟩

/-- Counterexample to claim C7: the opt-out cleanup deletes a managed VPA
whose matching owner reference is NOT a controller reference, although the
claim restricts the deleted set to VPAs with a matching controller-owner
reference. -/
theorem claim_C7_counterexample :
    getControllerOf exNonCtl.ownerReferences = none ∧
    exNonCtl.labels.lookup exMeta.managedLabel = some "true" ∧
    (DeleteManagedVPAsForOptOut exMeta ⟨[exNonCtl]⟩ exWorkload "Deployment").2.writes
      = [WriteOp.delete "ns1" "vpa-x"] ∧
    (DeleteManagedVPAsForOptOut exMeta ⟨[exNonCtl]⟩ exWorkload "Deployment").1.vpas = [] := by
  refine ⟨rfl, rfl, ?_, ?_⟩ <;> decide

/-- Claim C7 as amended: the cleanup deletes exactly those VPAs of the key's
namespace that carry the managed label and have ANY owner reference -
controller flag and uid ignored - whose kind and name match; every other VPA
survives (under the API-server guarantee of unique coordinates), every
delete call targets such a VPA, and the cleanup always returns success in
this model because each delete treats NotFound as success. Both the opt-out
and the workload-gone wrappers instantiate this `deleteManagedVPAs` loop. -/
theorem claim_C7_amended (meta : MetaConfig) (c : Cluster) (w : Workload)
    (wk : String) (cb : String → String → List CounterInc)
    (huniq : ∀ u ∈ c.vpas, ∀ v ∈ c.vpas, u.ns = v.ns → u.name = v.name → u = v) :
    (∀ u, u ∈ (deleteManagedVPAs meta c w wk cb).1.vpas ↔
      u ∈ c.vpas ∧
        ¬(u.ns = w.ns ∧ u.labels.lookup meta.managedLabel = some "true" ∧
          anyOwnerMatch u wk w.name = true))
    ∧ (∀ ns nm, WriteOp.delete ns nm ∈ (deleteManagedVPAs meta c w wk cb).2.writes →
        ∃ v ∈ c.vpas, v.ns = ns ∧ v.name = nm ∧ v.ns = w.ns ∧
          v.labels.lookup meta.managedLabel = some "true" ∧
          anyOwnerMatch v wk w.name = true) := by
  constructor
  · intro u
    exact deleteManagedVPAs_mem_iff meta c w wk cb huniq u
  · intro ns nm h
    unfold deleteManagedVPAs at h
    rcases foldl_delVPAStep_writes w wk cb meta.profileKey _ _ _ h with h | ⟨v, hv, he, hm⟩
    · cases h
    · obtain ⟨hvm, hvns, hvml⟩ := (mem_listManagedVPAs c meta.managedLabel w.ns v).1 hv
      obtain ⟨h1, h2⟩ := WriteOp.delete.inj he
      exact ⟨v, hvm, h1.symm, h2.symm, hvns, hvml, hm⟩

/-- Witness for the amended C7 at the concrete non-controller-reference
scenario. -/
theorem claim_C7_amended_witness :
    ∃ v ∈ (Cluster.mk [exNonCtl]).vpas, v.ns = "ns1" ∧ v.name = "vpa-x" ∧
      v.ns = exWorkload.ns ∧
      v.labels.lookup exMeta.managedLabel = some "true" ∧
      anyOwnerMatch v "Deployment" exWorkload.name = true :=
  (claim_C7_amended exMeta ⟨[exNonCtl]⟩ exWorkload "Deployment"
    (fun ns profile => [.vpaDeletedOptOut ns "Deployment", .vpaManagedDec ns profile])
    (by decide)).2 "ns1" "vpa-x" (by decide)

end Autovpa
